import Mathlib

/-!
Shallow embedding of the bullet-dodge game engine in `src/pages/index.js`.

JS numbers are modelled as exact rationals (`ℚ`); timestamps (`Date.now()`)
are rationals in milliseconds.  The impure host functions `Math.random`,
`Math.sqrt`, `Math.cos`, `Math.sin` and `Math.atan2` are modelled by an
`Oracle`: `rand` is the stream of successive `Math.random()` draws (threaded
by an explicit counter, in exactly the order the source consumes them), and
the other fields are uninterpreted real-valued functions.  The calls
`Math.cos/Math.sin` at the exact right angles `(Math.PI / 2) * i` in
`spawnCrossPattern` are evaluated to their exact values `0, ±1`.
-/

namespace Croco

/-- Session status, `gameData.status` in the source
(`'playing' | 'stageClear' | 'gameOver'`). -/
inductive Status where
  | playing
  | stageClear
  | gameOver
deriving DecidableEq

/-- Item types, `['shield', '꽝', 'clear']` in the source; `dud` is the
no-op `'꽝'` item. -/
inductive ItemType where
  | shield
  | dud
  | clear
deriving DecidableEq

/-- Gem operator, one of `['+', '-', '*', '/']`. -/
inductive Op where
  | add
  | sub
  | mul
  | div
deriving DecidableEq

/-- The player object created in `handleStartGame`. -/
structure Player where
  name : String
  lives : ℤ
  score : ℚ
  x : ℚ
  y : ℚ
  isInvincible : Bool
  invincibleUntil : ℚ
deriving DecidableEq

/-- A projectile.  Source bullets may lack the `isSplitter`, `splitAt`
and `isHoming` fields; a missing (undefined) field is falsy, modelled by
`false` / `0`. -/
structure Bullet where
  id : String
  x : ℚ
  y : ℚ
  dx : ℚ
  dy : ℚ
  isSplitter : Bool
  splitAt : ℚ
  isHoming : Bool
deriving DecidableEq

/-- A pickup item. -/
structure Item where
  id : String
  type : ItemType
  x : ℚ
  y : ℚ
  expiresAt : ℚ
deriving DecidableEq

/-- A scoring gem, created by `createMathGem`. -/
structure MathGem where
  id : String
  x : ℚ
  y : ℚ
  expiresAt : ℚ
  operator : Op
  value1 : ℤ
  value2 : ℤ
  text : String
deriving DecidableEq

/-- Ephemeral score-delta feedback. -/
structure FloatingText where
  id : String
  text : String
  x : ℚ
  y : ℚ
  expiresAt : ℚ
deriving DecidableEq

/-- The root mutable session object `gameDataRef.current`. -/
structure GameData where
  player : Player
  bullets : List Bullet
  items : List Item
  mathGems : List MathGem
  floatingTexts : List FloatingText
  status : Status
  gameStartTime : ℚ
  stageStartTime : ℚ
  totalTime : ℤ
  totalPausedTime : ℚ
  pausedTimeAtStageStart : ℚ
  pauseStartTime : ℚ
  displayScore : ℚ
  remainingTime : ℚ
  stage : ℤ
  stageDuration : ℚ
  width : ℚ
  height : ℚ
  lastBulletSpawn : ℚ
  lastHomingSpawn : ℚ
  lastSplitterSpawn : ℚ
  lastPatternSpawn : ℚ
  nextItemSpawnTime : ℚ
  finalScore : Option ℚ
deriving DecidableEq

/-- Host math functions: `rand n` is the value of the `n`-th call to
`Math.random()`; `sqrt`, `cos`, `sin`, `atan2` model the corresponding
`Math` functions as uninterpreted rational functions. -/
structure Oracle where
  rand : ℕ → ℚ
  sqrt : ℚ → ℚ
  cos : ℚ → ℚ
  sin : ℚ → ℚ
  atan2 : ℚ → ℚ → ℚ

/-- The oracle draws are genuine `Math.random()` values, i.e. in `[0, 1)`. -/
def RandInRange (o : Oracle) : Prop :=
  ∀ n, 0 ≤ o.rand n ∧ o.rand n < 1

-- Game constants from the top of the source file.

def GAME_WIDTH : ℚ := 400
def GAME_HEIGHT : ℚ := 580
def PLAYER_SIZE : ℚ := 35
def BULLET_SIZE : ℚ := 15
def ITEM_SIZE : ℚ := 30
def STAGE_DURATION : ℚ := 60
def DEBUG_STAGE_DURATION : ℚ := 15
def ITEM_LIFESPAN : ℚ := 10000
def GEM_LIFESPAN : ℚ := 6000
def PLAYER_BASE_SPEED : ℚ := 250
def PLAYER_HITBOX_PADDING : ℚ := 5

/-- Helper `getRandom(min, max) = Math.random() * (max - min) + min`,
returning the drawn value together with the advanced draw counter. -/
def getRandom (o : Oracle) (k : ℕ) (min max : ℚ) : ℚ × ℕ :=
  (o.rand k * (max - min) + min, k + 1)

/-- The operator array `['+', '-', '*', '/']` in `createMathGem`. -/
def operatorArray : List Op := [Op.add, Op.sub, Op.mul, Op.div]

/-- Rendering of a gem operator in the gem label (`'*'` renders `×`). -/
def opSymbol : Op → String
  | Op.add => "+"
  | Op.sub => "-"
  | Op.mul => "×"
  | Op.div => "/"

/-- Embedding of `createMathGem(now, width, height)`. -/
def createMathGem (o : Oracle) (k : ℕ) (now width height : ℚ) : MathGem × ℕ :=
  let r0 := o.rand k
  let k := k + 1
  let operator := operatorArray.getD (Int.floor (r0 * 4)).toNat Op.add
  let rv1 := getRandom o k (-9) 10
  let value1 := Int.floor rv1.1
  let rv2 := getRandom o rv1.2 (-9) 10
  let v2raw := Int.floor rv2.1
  let value2 := if operator = Op.div ∧ v2raw = 0 then 1 else v2raw
  let text := toString value1 ++ opSymbol operator ++ toString value2
  let rx := getRandom o rv2.2 50 (width - 50)
  let ry := getRandom o rx.2 50 (height - 50)
  ({ id := s!"g_{now}", x := rx.1, y := ry.1, expiresAt := now + GEM_LIFESPAN,
     operator := operator, value1 := value1, value2 := value2, text := text }, ry.2)

/-- Embedding of `spawnSideBullet(gameData, speed, isSplitter)`.  The
`Date.now()` calls inside the function are identified with the tick time
`now`. -/
def spawnSideBullet (o : Oracle) (k : ℕ) (gameData : GameData) (now speed : ℚ)
    (isSplitter : Bool) : GameData × ℕ :=
  let rid := getRandom o k 0 999
  let bid := s!"b_{now}_" ++ toString rid.1
  let sp : ℚ × ℕ :=
    if isSplitter then
      let d := getRandom o rid.2 1000 2000
      (now + d.1, d.2)
    else (0, rid.2)
  let rside := getRandom o sp.2 0 4
  let side := Int.floor rside.1
  let pos : (ℚ × ℚ) × ℕ :=
    if side = 0 then
      let r := getRandom o rside.2 0 gameData.width
      ((r.1, -BULLET_SIZE), r.2)
    else if side = 1 then
      let r := getRandom o rside.2 0 gameData.height
      ((gameData.width, r.1), r.2)
    else if side = 2 then
      let r := getRandom o rside.2 0 gameData.width
      ((r.1, gameData.height), r.2)
    else if side = 3 then
      let r := getRandom o rside.2 0 gameData.height
      ((-BULLET_SIZE, r.1), r.2)
    else ((0, 0), rside.2)
  let rtx := getRandom o pos.2 0 gameData.width
  let rty := getRandom o rtx.2 0 gameData.height
  let dx0 := rtx.1 - pos.1.1
  let dy0 := rty.1 - pos.1.2
  let magnitude := o.sqrt (dx0 * dx0 + dy0 * dy0)
  let vel : ℚ × ℚ :=
    if magnitude > 0 then ((dx0 / magnitude) * speed, (dy0 / magnitude) * speed)
    else (0, speed)
  let nb : Bullet :=
    { id := bid, x := pos.1.1, y := pos.1.2, dx := vel.1, dy := vel.2,
      isSplitter := isSplitter, splitAt := sp.1, isHoming := false }
  ({ gameData with bullets := gameData.bullets ++ [nb] }, rty.2)

/-- Exact values of `(Math.cos a, Math.sin a)` at `a = (Math.PI / 2) * i`
for `i = 0, 1, 2, 3`, i.e. the four cardinal directions. -/
def crossDir : ℕ → ℚ × ℚ
  | 0 => (1, 0)
  | 1 => (0, 1)
  | 2 => (-1, 0)
  | 3 => (0, -1)
  | _ => (1, 0)

/-- The four bullets pushed by `spawnCrossPattern(gameData, x, y, speed)`. -/
def crossBullets (now x y speed : ℚ) : List Bullet :=
  (List.range 4).map fun i =>
    { id := s!"b_{now}_split_{i}", x := x, y := y,
      dx := (crossDir i).1 * speed, dy := (crossDir i).2 * speed,
      isSplitter := false, splitAt := 0, isHoming := false }

/-- Embedding of `spawnCrossPattern(gameData, x, y, speed)`. -/
def spawnCrossPattern (gameData : GameData) (now x y speed : ℚ) : GameData :=
  { gameData with bullets := gameData.bullets ++ crossBullets now x y speed }

/-- Embedding of `spawnAimedBullet(gameData, speed)`. -/
def spawnAimedBullet (o : Oracle) (k : ℕ) (gameData : GameData) (now speed : ℚ) :
    GameData × ℕ :=
  let player := gameData.player
  let r1 := getRandom o k 0 1
  let x := if r1.1 > 1 / 2 then -BULLET_SIZE else gameData.width + BULLET_SIZE
  let ry := getRandom o r1.2 0 gameData.height
  let a := o.atan2 (player.y - ry.1) (player.x - x)
  let nb : Bullet :=
    { id := s!"b_{now}_aim", x := x, y := ry.1,
      dx := o.cos a * speed, dy := o.sin a * speed,
      isSplitter := false, splitAt := 0, isHoming := false }
  ({ gameData with bullets := gameData.bullets ++ [nb] }, ry.2)

/-- Embedding of `spawnHomingBullet(gameData, speed)`. -/
def spawnHomingBullet (o : Oracle) (k : ℕ) (gameData : GameData) (now speed : ℚ) :
    GameData × ℕ :=
  let r1 := getRandom o k 0 1
  let x := if r1.1 > 1 / 2 then -BULLET_SIZE else gameData.width + BULLET_SIZE
  let ry := getRandom o r1.2 0 gameData.height
  let nb : Bullet :=
    { id := s!"b_{now}_homing", x := x, y := ry.1,
      dx := if x > 0 then -speed else speed, dy := 0,
      isSplitter := false, splitAt := 0, isHoming := true }
  ({ gameData with bullets := gameData.bullets ++ [nb] }, ry.2)

/-- One iteration of the wall-pattern loop of
`spawnImpossibleWallPattern`: the bullet at offset
`i = j * (BULLET_SIZE * 1.5)` on the chosen side, or nothing when the
offset falls inside the gap. -/
def wallBullet (gameData : GameData) (now currentSpeed gapPosition : ℚ)
    (side : ℤ) (j : ℕ) : Option Bullet :=
  let gapSize := PLAYER_SIZE * (11 / 5)
  let i := (j : ℚ) * (BULLET_SIZE * (3 / 2))
  if i > gapPosition ∧ i < gapPosition + gapSize then none
  else if side < 2 then
    some { id := s!"b_{now}_" ++ toString i, x := i,
           y := if side = 0 then -BULLET_SIZE else gameData.height + BULLET_SIZE,
           dx := 0, dy := if side = 0 then currentSpeed else -currentSpeed,
           isSplitter := false, splitAt := 0, isHoming := false }
  else
    some { id := s!"b_{now}_" ++ toString i,
           x := if side = 2 then -BULLET_SIZE else gameData.width + BULLET_SIZE,
           y := i, dx := if side = 2 then currentSpeed else -currentSpeed, dy := 0,
           isSplitter := false, splitAt := 0, isHoming := false }

/-- Embedding of `spawnImpossibleWallPattern(gameData, speed, timeInStage)`.
The JS loop `for (let i = 0; i < width; i += BULLET_SIZE * 1.5)` is the
sequence `i = j * step` for `j < ⌈width / step⌉`. -/
def spawnImpossibleWallPattern (o : Oracle) (k : ℕ) (gameData : GameData)
    (now speed timeInStage : ℚ) : GameData × ℕ :=
  let rs := getRandom o k 0 4
  let side := Int.floor rs.1
  let isSecondHalf := decide (timeInStage ≥ 30)
  let currentSpeed := speed * (if isSecondHalf then 3 / 2 else 1)
  let gapSize := PLAYER_SIZE * (11 / 5)
  let rg := getRandom o rs.2 PLAYER_SIZE (gameData.width - PLAYER_SIZE - gapSize)
  let gapPosition := rg.1
  let step := BULLET_SIZE * (3 / 2)
  let n := (Int.ceil (gameData.width / step)).toNat
  let newBullets := (List.range n).filterMap
    (wallBullet gameData now currentSpeed gapPosition side)
  ({ gameData with bullets := gameData.bullets ++ newBullets }, rg.2)

/-- Stage 1 of `generateBullets`: side bullets at a linearly shrinking
interval.  `lastBulletSpawn` is the per-pattern timestamp destructured on
entry to `generateBullets`. -/
def genStage1 (o : Oracle) (k : ℕ) (gameData : GameData)
    (now timeInStage lastBulletSpawn : ℚ) : GameData × ℕ :=
  let speed : ℚ := 108
  let stage1Interval := 1000 - (timeInStage / gameData.stageDuration) * 800
  if now - lastBulletSpawn > max 200 stage1Interval then
    let r := spawnSideBullet o k gameData now speed false
    ({ r.1 with lastBulletSpawn := now }, r.2)
  else (gameData, k)

/-- Stage 2 of `generateBullets`: side bullets plus periodic homing. -/
def genStage2 (o : Oracle) (k : ℕ) (gameData : GameData)
    (now lastBulletSpawn lastHomingSpawn : ℚ) : GameData × ℕ :=
  let speed : ℚ := 120
  let r1 : GameData × ℕ :=
    if now - lastBulletSpawn > 700 then
      let r := spawnSideBullet o k gameData now speed false
      ({ r.1 with lastBulletSpawn := now }, r.2)
    else (gameData, k)
  if now - lastHomingSpawn > 3000 then
    let r := spawnHomingBullet o r1.2 r1.1 now (speed * (7 / 10))
    ({ r.1 with lastHomingSpawn := now }, r.2)
  else r1

/-- Stage 3 of `generateBullets`: side bullets plus periodic splitters. -/
def genStage3 (o : Oracle) (k : ℕ) (gameData : GameData)
    (now lastBulletSpawn lastSplitterSpawn : ℚ) : GameData × ℕ :=
  let speed : ℚ := 132
  let r1 : GameData × ℕ :=
    if now - lastBulletSpawn > 700 then
      let r := spawnSideBullet o k gameData now speed false
      ({ r.1 with lastBulletSpawn := now }, r.2)
    else (gameData, k)
  if now - lastSplitterSpawn > 3000 then
    let r := spawnSideBullet o r1.2 r1.1 now speed true
    ({ r.1 with lastSplitterSpawn := now }, r.2)
  else r1

/-- Stage 4 of `generateBullets`: side, homing and splitter spawns. -/
def genStage4 (o : Oracle) (k : ℕ) (gameData : GameData)
    (now lastBulletSpawn lastHomingSpawn lastSplitterSpawn : ℚ) : GameData × ℕ :=
  let speed : ℚ := 150
  let r1 : GameData × ℕ :=
    if now - lastBulletSpawn > 600 then
      let r := spawnSideBullet o k gameData now speed false
      ({ r.1 with lastBulletSpawn := now }, r.2)
    else (gameData, k)
  let r2 : GameData × ℕ :=
    if now - lastHomingSpawn > 2800 then
      let r := spawnHomingBullet o r1.2 r1.1 now (speed * (3 / 4))
      ({ r.1 with lastHomingSpawn := now }, r.2)
    else r1
  if now - lastSplitterSpawn > 2500 then
    let r := spawnSideBullet o r2.2 r2.1 now speed true
    ({ r.1 with lastSplitterSpawn := now }, r.2)
  else r2

/-- Stage 5 of `generateBullets`: fast side bullets plus the wall pattern. -/
def genStage5 (o : Oracle) (k : ℕ) (gameData : GameData)
    (now timeInStage lastBulletSpawn lastPatternSpawn : ℚ) : GameData × ℕ :=
  let speed : ℚ := 228
  let r1 : GameData × ℕ :=
    if now - lastBulletSpawn > 400 then
      let r := spawnSideBullet o k gameData now speed false
      ({ r.1 with lastBulletSpawn := now }, r.2)
    else (gameData, k)
  if now - lastPatternSpawn > 5000 then
    let r := spawnImpossibleWallPattern o r1.2 r1.1 now 150 timeInStage
    ({ r.1 with lastPatternSpawn := now }, r.2)
  else r1

/-- The default (infinite, stage ≥ 6) branch of `generateBullets`. -/
def genStageInfinite (o : Oracle) (k : ℕ) (gameData : GameData)
    (now lastBulletSpawn : ℚ) : GameData × ℕ :=
  let infiniteBonus := ((gameData.stage : ℚ) - 6) * 50
  let spawnInterval := 300 - infiniteBonus
  let speed := 240 + ((gameData.stage : ℚ) - 6) * 12
  if now - lastBulletSpawn > max 50 spawnInterval then
    let r1 := spawnSideBullet o k gameData now speed true
    let r2 : GameData × ℕ :=
      if o.rand r1.2 < 1 / 5 then spawnAimedBullet o (r1.2 + 1) r1.1 now speed
      else (r1.1, r1.2 + 1)
    let r3 : GameData × ℕ :=
      if o.rand r2.2 < 1 / 10 then spawnHomingBullet o (r2.2 + 1) r2.1 now (speed * (4 / 5))
      else (r2.1, r2.2 + 1)
    ({ r3.1 with lastBulletSpawn := now }, r3.2)
  else (gameData, k)

/-- Embedding of `generateBullets(gameData, now, timeInStage)`: the
per-stage switch.  The spawn conditions read the per-pattern timestamps
destructured on entry, exactly as the source does. -/
def generateBullets (o : Oracle) (k : ℕ) (gameData : GameData)
    (now timeInStage : ℚ) : GameData × ℕ :=
  if gameData.stage = 1 then
    genStage1 o k gameData now timeInStage gameData.lastBulletSpawn
  else if gameData.stage = 2 then
    genStage2 o k gameData now gameData.lastBulletSpawn gameData.lastHomingSpawn
  else if gameData.stage = 3 then
    genStage3 o k gameData now gameData.lastBulletSpawn gameData.lastSplitterSpawn
  else if gameData.stage = 4 then
    genStage4 o k gameData now gameData.lastBulletSpawn gameData.lastHomingSpawn
      gameData.lastSplitterSpawn
  else if gameData.stage = 5 then
    genStage5 o k gameData now timeInStage gameData.lastBulletSpawn
      gameData.lastPatternSpawn
  else
    genStageInfinite o k gameData now gameData.lastBulletSpawn

/-- The stage-clear guard at the top of `updateGameLogic`:
the effective stage-elapsed time (wall time since stage start minus paused
time accrued during this stage) in seconds has reached the stage duration,
and the stage index is below 6. -/
def stageClearCondition (gameData : GameData) (now : ℚ) : Prop :=
  ((now - gameData.stageStartTime) -
      (gameData.totalPausedTime - gameData.pausedTimeAtStageStart)) / 1000 ≥
    gameData.stageDuration ∧ gameData.stage < 6

instance (gameData : GameData) (now : ℚ) : Decidable (stageClearCondition gameData now) := by
  unfold stageClearCondition
  infer_instance

/-- Timer bookkeeping of `updateGameLogic` (its lines after the stage-clear
guard): `totalTime`, `displayScore` and `remainingTime`. -/
def tickTimers (gameData : GameData) (now : ℚ) : GameData :=
  let effectiveElapsedTime := (now - gameData.gameStartTime) - gameData.totalPausedTime
  let timeInStageSec := ((now - gameData.stageStartTime) -
    (gameData.totalPausedTime - gameData.pausedTimeAtStageStart)) / 1000
  { gameData with
    totalTime := Int.floor (effectiveElapsedTime / 1000),
    displayScore := gameData.player.score + effectiveElapsedTime * (1 / 100),
    remainingTime := gameData.stageDuration - (Int.floor timeInStageSec : ℤ) }

/-- The splitter pass of `updateGameLogic`: splitters whose scheduled time
has arrived are removed, and for each removed splitter a cross pattern of
speed 150 is pushed from its last position. -/
def splitPhase (gameData : GameData) (now : ℚ) : GameData :=
  let bulletsToSplit := gameData.bullets.filter fun b =>
    b.isSplitter && decide (now ≥ b.splitAt)
  let kept := gameData.bullets.filter fun b =>
    !(b.isSplitter && decide (now ≥ b.splitAt))
  bulletsToSplit.foldl (fun gd b => spawnCrossPattern gd now b.x b.y 150)
    { gameData with bullets := kept }

/-- The bullet motion pass: homing steering, position integration, and the
out-of-bounds filter (`x, y` kept strictly between `-BULLET_SIZE` and the
arena extent). -/
def moveBullets (o : Oracle) (gameData : GameData) (dt : ℚ) : GameData :=
  let player := gameData.player
  let moved := gameData.bullets.map fun b =>
    let b :=
      if b.isHoming && decide (player.lives > 0) then
        let angle := o.atan2 (player.y - b.y) (player.x - b.x)
        { b with dx := b.dx + o.cos angle * 3 * dt, dy := b.dy + o.sin angle * 3 * dt }
      else b
    { b with x := b.x + b.dx * dt, y := b.y + b.dy * dt }
  let kept := moved.filter fun b =>
    decide (b.x > -BULLET_SIZE) && decide (b.x < gameData.width) &&
    decide (b.y > -BULLET_SIZE) && decide (b.y < gameData.height)
  { gameData with bullets := kept }

/-- The item array `['shield', '꽝', 'clear']`. -/
def itemTypeArray : List ItemType := [ItemType.shield, ItemType.dud, ItemType.clear]

/-- The periodic item spawn in `updateGameLogic`. -/
def itemSpawnPhase (o : Oracle) (k : ℕ) (gameData : GameData) (now : ℚ) :
    GameData × ℕ :=
  if now > gameData.nextItemSpawnTime then
    let rt := o.rand k
    let t := itemTypeArray.getD (Int.floor (rt * 3)).toNat ItemType.shield
    let rx := getRandom o (k + 1) 50 (gameData.width - 50)
    let ry := getRandom o rx.2 50 (gameData.height - 50)
    let rn := getRandom o ry.2 5000 10000
    let ni : Item :=
      { id := s!"i_{now}", type := t, x := rx.1, y := ry.1,
        expiresAt := now + ITEM_LIFESPAN }
    ({ gameData with items := gameData.items ++ [ni], nextItemSpawnTime := now + rn.1 },
     rn.2)
  else (gameData, k)

/-- Expired-item pruning (`items.filter(i => i.expiresAt > now)`). -/
def expireItems (gameData : GameData) (now : ℚ) : GameData :=
  { gameData with items := gameData.items.filter fun i => decide (i.expiresAt > now) }

/-- Gem maintenance: prune expired gems, then respawn a fresh gem when the
gem list is empty. -/
def gemMaintenance (o : Oracle) (k : ℕ) (gameData : GameData) (now : ℚ) :
    GameData × ℕ :=
  let gems := gameData.mathGems.filter fun s => decide (s.expiresAt > now)
  if gems.length = 0 then
    let g := createMathGem o k now gameData.width gameData.height
    ({ gameData with mathGems := gems ++ [g.1] }, g.2)
  else ({ gameData with mathGems := gems }, k)

/-- Floating-text pruning. -/
def expireFloatingTexts (gameData : GameData) (now : ℚ) : GameData :=
  let kept := gameData.floatingTexts.filter fun ft => decide (ft.expiresAt > now)
  { gameData with floatingTexts := kept }

/-- The player-projectile AABB overlap test with the inward hitbox padding. -/
def bulletHitsPlayer (player : Player) (b : Bullet) : Bool :=
  let hx := player.x + PLAYER_HITBOX_PADDING
  let hy := player.y + PLAYER_HITBOX_PADDING
  let hw := PLAYER_SIZE - 2 * PLAYER_HITBOX_PADDING
  let hh := PLAYER_SIZE - 2 * PLAYER_HITBOX_PADDING
  decide (hx < b.x + BULLET_SIZE) && decide (hx + hw > b.x) &&
  decide (hy < b.y + BULLET_SIZE) && decide (hy + hh > b.y)

/-- The fatal-collision pass: when the player is alive and not invincible
and some bullet overlaps the padded hitbox, lives drop to 0 and a 2000 ms
invincibility grace window is granted.  (The source breaks after the first
overlapping bullet; the state change does not depend on which one it is.) -/
def collisionPhase (gameData : GameData) (now : ℚ) : GameData :=
  let player := gameData.player
  if player.lives > 0 ∧ player.isInvincible = false then
    if gameData.bullets.any (bulletHitsPlayer player) then
      let p : Player :=
        { player with lives := 0, isInvincible := true, invincibleUntil := now + 2000 }
      { gameData with player := p }
    else gameData
  else gameData

/-- The player-item AABB overlap test (full-size boxes). -/
def playerTouchesItem (player : Player) (item : Item) : Bool :=
  decide (player.x < item.x + ITEM_SIZE) && decide (player.x + PLAYER_SIZE > item.x) &&
  decide (player.y < item.y + ITEM_SIZE) && decide (player.y + PLAYER_SIZE > item.y)

/-- One step of the item-pickup filter callback: state is
(player, bullets, items kept so far). -/
def itemPickupStep (now : ℚ) (st : Player × List Bullet × List Item) (item : Item) :
    Player × List Bullet × List Item :=
  if st.1.lives > 0 ∧ playerTouchesItem st.1 item = true then
    match item.type with
    | ItemType.shield =>
        ({ st.1 with isInvincible := true, invincibleUntil := now + 5000 }, st.2.1, st.2.2)
    | ItemType.clear => (st.1, [], st.2.2)
    | ItemType.dud => (st.1, st.2.1, st.2.2)
  else (st.1, st.2.1, st.2.2 ++ [item])

/-- The item-pickup pass (the `items.filter` with effectful callback). -/
def itemPickupPhase (gameData : GameData) (now : ℚ) : GameData :=
  let st := gameData.items.foldl (itemPickupStep now)
    (gameData.player, gameData.bullets, [])
  { gameData with player := st.1, bullets := st.2.1, items := st.2.2 }

/-- The score delta computed from a gem's operator and operands; a zero
second operand under division yields 0. -/
def gemScoreChange (gem : MathGem) : ℚ :=
  match gem.operator with
  | Op.add => (gem.value1 : ℚ) + (gem.value2 : ℚ)
  | Op.sub => (gem.value1 : ℚ) - (gem.value2 : ℚ)
  | Op.mul => (gem.value1 : ℚ) * (gem.value2 : ℚ)
  | Op.div => if gem.value2 ≠ 0 then (gem.value1 : ℚ) / (gem.value2 : ℚ) else 0

/-- The player-gem AABB overlap test (gem box is `ITEM_SIZE * 1.5` square). -/
def playerTouchesGem (player : Player) (gem : MathGem) : Bool :=
  decide (player.x < gem.x + ITEM_SIZE * (3 / 2)) &&
  decide (player.x + PLAYER_SIZE > gem.x) &&
  decide (player.y < gem.y + ITEM_SIZE * (3 / 2)) &&
  decide (player.y + PLAYER_SIZE > gem.y)

/-- One step of the gem-pickup filter callback: state is
(player, floating texts, gems kept so far). -/
def gemPickupStep (now : ℚ) (st : Player × List FloatingText × List MathGem)
    (gem : MathGem) : Player × List FloatingText × List MathGem :=
  if st.1.lives > 0 ∧ playerTouchesGem st.1 gem = true then
    let scoreChange := gemScoreChange gem
    let ft : FloatingText :=
      { id := s!"ft_{now}",
        text := (if scoreChange ≥ 0 then "+" else "") ++ toString (Int.floor scoreChange),
        x := st.1.x, y := st.1.y, expiresAt := now + 1500 }
    ({ st.1 with score := max 0 (st.1.score + scoreChange) }, st.2.1 ++ [ft], st.2.2)
  else (st.1, st.2.1, st.2.2 ++ [gem])

/-- The gem-pickup pass. -/
def gemPickupPhase (gameData : GameData) (now : ℚ) : GameData :=
  let st := gameData.mathGems.foldl (gemPickupStep now)
    (gameData.player, gameData.floatingTexts, [])
  { gameData with player := st.1, floatingTexts := st.2.1, mathGems := st.2.2 }

/-- Invincibility auto-expiry: the flag is cleared only when `now` is
strictly past the stored expiry. -/
def invincibilityExpiryPhase (gameData : GameData) (now : ℚ) : GameData :=
  let player := gameData.player
  if player.isInvincible = true ∧ now > player.invincibleUntil then
    let p := { player with isInvincible := false, invincibleUntil := (0 : ℚ) }
    { gameData with player := p }
  else gameData

/-- The game-over check at the end of `updateGameLogic`: with no lives
left the status becomes `gameOver` and the final score is frozen. -/
def gameOverPhase (gameData : GameData) (now : ℚ) : GameData :=
  if gameData.player.lives ≤ 0 then
    let finalElapsedTime := now - gameData.gameStartTime - gameData.totalPausedTime
    let finalTotalTime : ℤ := Int.floor (finalElapsedTime / 1000)
    { gameData with
      status := Status.gameOver,
      finalScore := some (gameData.player.score + (finalTotalTime : ℚ) * 10) }
  else gameData

/-- The part of `updateGameLogic` that runs before the collision checks:
timers, splitter conversion, bullet motion and pruning, spawning, and
entity expiry/respawn, in source order. -/
def preCollisionState (o : Oracle) (k : ℕ) (gameData : GameData) (now dt : ℚ) :
    GameData × ℕ :=
  let timeInStageSec := ((now - gameData.stageStartTime) -
    (gameData.totalPausedTime - gameData.pausedTimeAtStageStart)) / 1000
  let gd1 := tickTimers gameData now
  let gd2 := splitPhase gd1 now
  let gd3 := moveBullets o gd2 dt
  let r4 := generateBullets o k gd3 now timeInStageSec
  let r5 := itemSpawnPhase o r4.2 r4.1 now
  let gd6 := expireItems r5.1 now
  let r7 := gemMaintenance o r5.2 gd6 now
  (expireFloatingTexts r7.1 now, r7.2)

/-- Embedding of `updateGameLogic(gameData, now, deltaTime)`. -/
def updateGameLogic (o : Oracle) (k : ℕ) (gameData : GameData) (now dt : ℚ) :
    GameData × ℕ :=
  if stageClearCondition gameData now then
    ({ gameData with
       status := Status.stageClear, remainingTime := 0, pauseStartTime := now }, k)
  else
    let r := preCollisionState o k gameData now dt
    let gd := collisionPhase r.1 now
    let gd := itemPickupPhase gd now
    let gd := gemPickupPhase gd now
    let gd := invincibilityExpiryPhase gd now
    (gameOverPhase gd now, r.2)

/-- The per-stage player speed multiplier (stage 1 → 0.8, stage 3 → 0.9,
otherwise 1.0). -/
def stageSpeedMultiplier (stage : ℤ) : ℚ :=
  if stage = 1 then 4 / 5 else if stage = 3 then 9 / 10 else 1

/-- The movement part of the click-to-move block in `gameLoop`, before the
bounds clamp: returns the moved player and whether the target is kept. -/
def movePlayerRaw (o : Oracle) (stage : ℤ) (player : Player) (target : ℚ × ℚ)
    (dt : ℚ) : Player × Bool :=
  let dx := target.1 - (player.x + PLAYER_SIZE / 2)
  let dy := target.2 - (player.y + PLAYER_SIZE / 2)
  let distance := o.sqrt (dx * dx + dy * dy)
  let currentPlayerSpeed := PLAYER_BASE_SPEED * stageSpeedMultiplier stage
  if distance > 5 then
    let p :=
      { player with
        x := player.x + (dx / distance) * currentPlayerSpeed * dt,
        y := player.y + (dy / distance) * currentPlayerSpeed * dt }
    (p, true)
  else (player, false)

/-- The bounds clamp applied to the player position each movement tick. -/
def clampToArena (width height : ℚ) (player : Player) : Player :=
  { player with x := max 0 (min (width - PLAYER_SIZE) player.x),
                y := max 0 (min (height - PLAYER_SIZE) player.y) }

/-- The whole click-to-move block of `gameLoop`: runs only when the player
is alive and a target is set; the target survives exactly when the
remaining distance was above the stop threshold. -/
def movePlayer (o : Oracle) (stage : ℤ) (width height : ℚ) (player : Player)
    (target : Option (ℚ × ℚ)) (dt : ℚ) : Player × Option (ℚ × ℚ) :=
  match target with
  | none => (player, none)
  | some t =>
    if player.lives > 0 then
      let r := movePlayerRaw o stage player t dt
      (clampToArena width height r.1, if r.2 then some t else none)
    else (player, some t)

/-- Embedding of one `gameLoop` invocation: the status guard, delta-time
computation, player movement, and `updateGameLogic`.  Rendering and the UI
update are external. -/
def gameLoop (o : Oracle) (k : ℕ) (gameData : GameData)
    (target : Option (ℚ × ℚ)) (lastFrameTime now : ℚ) :
    GameData × Option (ℚ × ℚ) × ℕ :=
  if gameData.status ≠ Status.playing then (gameData, target, k)
  else
    let dt := (now - lastFrameTime) / 1000
    let r := movePlayer o gameData.stage gameData.width gameData.height
      gameData.player target dt
    let u := updateGameLogic o k { gameData with player := r.1 } now dt
    (u.1, r.2, u.2)

/-- The session mutation of `handleVisibilityChange` when the tab becomes
hidden: record the pause start (only for a playing session). -/
def pauseGame (gameData : GameData) (now : ℚ) : GameData :=
  if gameData.status = Status.playing then { gameData with pauseStartTime := now }
  else gameData

/-- The session mutation of `handleVisibilityChange` when the tab becomes
visible again: fold the pause interval into the cumulative paused time. -/
def resumeGame (gameData : GameData) (now : ℚ) : GameData :=
  if gameData.pauseStartTime > 0 then
    { gameData with
        totalPausedTime := gameData.totalPausedTime + (now - gameData.pauseStartTime),
        pauseStartTime := 0 }
  else gameData

/-- Embedding of `handleStartGame(startStage, isDebug)`. -/
def handleStartGame (o : Oracle) (k : ℕ) (playerId : String) (now : ℚ)
    (startStage : ℤ) (isDebug : Bool) : GameData × ℕ :=
  let duration := if isDebug then DEBUG_STAGE_DURATION else STAGE_DURATION
  let r := getRandom o k 5000 10000
  let player : Player :=
    { name := playerId, lives := 1, score := 0,
      x := GAME_WIDTH / 2 - PLAYER_SIZE / 2, y := GAME_HEIGHT - PLAYER_SIZE * 2,
      isInvincible := false, invincibleUntil := 0 }
  let gd : GameData :=
    { player := player, bullets := [], items := [], mathGems := [],
      floatingTexts := [], status := Status.playing,
      gameStartTime := now, stageStartTime := now, totalTime := 0,
      totalPausedTime := 0, pausedTimeAtStageStart := 0, pauseStartTime := 0,
      displayScore := 0, remainingTime := duration,
      stage := startStage, stageDuration := duration,
      width := GAME_WIDTH, height := GAME_HEIGHT,
      lastBulletSpawn := now, lastHomingSpawn := now, lastSplitterSpawn := now,
      lastPatternSpawn := now, nextItemSpawnTime := now + r.1,
      finalScore := none }
  (gd, r.2)

/-- Embedding of `handleNextStage()`. -/
def handleNextStage (o : Oracle) (k : ℕ) (prevData : GameData) (now : ℚ) :
    GameData × ℕ :=
  let nextStage := prevData.stage + 1
  let pausedDuration := if prevData.pauseStartTime > 0 then now - prevData.pauseStartTime else 0
  let newTotalPausedTime := prevData.totalPausedTime + pausedDuration
  let r := getRandom o k 5000 10000
  ({ prevData with
      player := { prevData.player with isInvincible := false, invincibleUntil := 0 },
      status := Status.playing,
      bullets := [], items := [], mathGems := [], floatingTexts := [],
      stage := nextStage, stageStartTime := now,
      totalPausedTime := newTotalPausedTime,
      pausedTimeAtStageStart := newTotalPausedTime,
      pauseStartTime := 0,
      remainingTime := prevData.stageDuration,
      lastBulletSpawn := now, lastHomingSpawn := now, lastSplitterSpawn := now,
      lastPatternSpawn := now, nextItemSpawnTime := now + r.1 }, r.2)

/-- A concrete oracle for witnesses: every random draw is 0 and all math
functions return 0. -/
def oracle0 : Oracle :=
  { rand := fun _ => 0, sqrt := fun _ => 0, cos := fun _ => 0, sin := fun _ => 0,
    atan2 := fun _ _ => 0 }

/-- A concrete freshly started stage-1 session (started at t = 1000 ms). -/
def gd0 : GameData := (handleStartGame oracle0 0 "P1" 1000 1 false).1


/-- A non-expiring gem sitting away from the player (no overlap). -/
def gemFar : MathGem :=
  { id := "gFar", x := 300, y := 300, expiresAt := 1000000, operator := Op.add,
    value1 := 3, value2 := 4, text := "3+4" }

/-- A concrete baseline mid-stage-2 session used by concrete scenarios:
player alive at (100, 100), no bullets or items, one live gem away from
the player, and all spawn timers set so that the tick at t = 1000 spawns
nothing. -/
def playerBase : Player :=
  { name := "P", lives := 1, score := 0, x := 100, y := 100,
    isInvincible := false, invincibleUntil := 0 }

/-- See `playerBase`; the rest of the baseline session. -/
def gdBase : GameData :=
  { player := playerBase,
    bullets := [], items := [], mathGems := [gemFar], floatingTexts := [],
    status := Status.playing, gameStartTime := 0, stageStartTime := 0, totalTime := 0,
    totalPausedTime := 0, pausedTimeAtStageStart := 0, pauseStartTime := 0,
    displayScore := 0, remainingTime := 60, stage := 2, stageDuration := 60,
    width := 400, height := 580, lastBulletSpawn := 1000, lastHomingSpawn := 1000,
    lastSplitterSpawn := 1000, lastPatternSpawn := 1000, nextItemSpawnTime := 1000000,
    finalScore := none }

/-- A gem directly under the player of `gdBase`. -/
def gemHere : MathGem :=
  { id := "gHere", x := 100, y := 100, expiresAt := 1000000, operator := Op.add,
    value1 := 3, value2 := 4, text := "3+4" }

/-- The baseline session with its single gem under the player. -/
def gdC4 : GameData := { gdBase with mathGems := [gemHere] }

/-- A stationary bullet overlapping the player hitbox of `gdBase`. -/
def bDeath : Bullet :=
  { id := "b0", x := 110, y := 110, dx := 0, dy := 0,
    isSplitter := false, splitAt := 0, isHoming := false }

/-- The baseline session with a bullet on top of the player, used to
exercise the death path. -/
def gdDeath : GameData := { gdBase with bullets := [bDeath] }

/-- The baseline session already in the terminal `gameOver` state. -/
def gdOver : GameData := { gdBase with status := Status.gameOver }

/-- The baseline player while invincible (granted at t = 3000 for 2000 ms,
so the stored expiry is 5000). -/
def playerInv : Player :=
  { playerBase with isInvincible := true, invincibleUntil := 5000 }

/-- The baseline session with the invincible player, spawn timers moved to
t = 5000 so the tick at t = 5000 spawns nothing. -/
def gdC5 : GameData :=
  { gdBase with player := playerInv, lastBulletSpawn := 5000, lastHomingSpawn := 5000 }

/-- A shield item directly under the player of `gdBase`. -/
def shieldItem : Item :=
  { id := "i0", type := ItemType.shield, x := 100, y := 100, expiresAt := 1000000 }

/-- The baseline session with a shield item under the player. -/
def gdShield : GameData := { gdBase with items := [shieldItem] }

/-- A splitter bullet scheduled to split at t = 900, for the C6 witness. -/
def sSpl : Bullet :=
  { id := "s0", x := 200, y := 200, dx := 0, dy := 0, isSplitter := true,
    splitAt := 900, isHoming := false }

/-- The baseline session holding a single pending splitter. -/
def gdSpl : GameData := { gdBase with bullets := [sSpl] }

/-- A plain (non-splitter, non-homing) bullet coexisting with splitters. -/
def bPlain : Bullet :=
  { id := "p0", x := 50, y := 60, dx := 10, dy := 0, isSplitter := false,
    splitAt := 0, isHoming := false }

/-- A second splitter whose scheduled split time (t = 2000) has not yet
arrived at tick time t = 1000. -/
def sSpl2 : Bullet :=
  { id := "s1", x := 300, y := 120, dx := 0, dy := 0, isSplitter := true,
    splitAt := 2000, isHoming := false }

/-- A session whose projectile list mixes a plain bullet, a due splitter
and a not-yet-due splitter. -/
def gdSplMix : GameData := { gdBase with bullets := [bPlain, sSpl, sSpl2] }

/-- Oracle whose sqrt returns 5 on input 25 (as `Math.sqrt` would), used by
the movement counterexample. -/
def oracleC8 : Oracle := { oracle0 with sqrt := fun q => if q = 25 then 5 else 0 }

/-- Oracle whose sqrt returns 10 on input 100. -/
def oracleSqrt10 : Oracle := { oracle0 with sqrt := fun q => if q = 100 then 10 else 0 }

/-- A bullet position inside the arena bounds extended by `BULLET_SIZE` on
every side; a bullet strictly outside this box is one the spec's pruning
property talks about. -/
def withinExtended (w h : ℚ) (b : Bullet) : Prop :=
  -BULLET_SIZE ≤ b.x ∧ b.x ≤ w + BULLET_SIZE ∧ -BULLET_SIZE ≤ b.y ∧ b.y ≤ h + BULLET_SIZE

instance (w h : ℚ) (b : Bullet) : Decidable (withinExtended w h b) := by
  unfold withinExtended
  infer_instance

-- Frame lemmas: which session fields each phase leaves untouched.

lemma tickTimers_status (gd : GameData) (now : ℚ) :
    (tickTimers gd now).status = gd.status := rfl

lemma tickTimers_player (gd : GameData) (now : ℚ) :
    (tickTimers gd now).player = gd.player := rfl

lemma tickTimers_bullets (gd : GameData) (now : ℚ) :
    (tickTimers gd now).bullets = gd.bullets := rfl

lemma tickTimers_mathGems (gd : GameData) (now : ℚ) :
    (tickTimers gd now).mathGems = gd.mathGems := rfl

lemma spawnCrossPattern_status (gd : GameData) (now x y s : ℚ) :
    (spawnCrossPattern gd now x y s).status = gd.status := rfl

lemma spawnCrossPattern_player (gd : GameData) (now x y s : ℚ) :
    (spawnCrossPattern gd now x y s).player = gd.player := rfl

lemma foldl_spawnCross_status (l : List Bullet) (gd : GameData) (now : ℚ) :
    (l.foldl (fun g b => spawnCrossPattern g now b.x b.y 150) gd).status = gd.status := by
  induction l generalizing gd with
  | nil => rfl
  | cons a t ih => rw [List.foldl_cons, ih, spawnCrossPattern_status]

lemma foldl_spawnCross_player (l : List Bullet) (gd : GameData) (now : ℚ) :
    (l.foldl (fun g b => spawnCrossPattern g now b.x b.y 150) gd).player = gd.player := by
  induction l generalizing gd with
  | nil => rfl
  | cons a t ih => rw [List.foldl_cons, ih, spawnCrossPattern_player]

lemma splitPhase_status (gd : GameData) (now : ℚ) :
    (splitPhase gd now).status = gd.status := by
  unfold splitPhase
  rw [foldl_spawnCross_status]

lemma splitPhase_player (gd : GameData) (now : ℚ) :
    (splitPhase gd now).player = gd.player := by
  unfold splitPhase
  rw [foldl_spawnCross_player]

lemma moveBullets_status (o : Oracle) (gd : GameData) (dt : ℚ) :
    (moveBullets o gd dt).status = gd.status := rfl

lemma moveBullets_player (o : Oracle) (gd : GameData) (dt : ℚ) :
    (moveBullets o gd dt).player = gd.player := rfl

lemma spawnSideBullet_status (o : Oracle) (k : ℕ) (gd : GameData) (now s : ℚ) (isSp : Bool) :
    ((spawnSideBullet o k gd now s isSp).1).status = gd.status := rfl

lemma spawnSideBullet_player (o : Oracle) (k : ℕ) (gd : GameData) (now s : ℚ) (isSp : Bool) :
    ((spawnSideBullet o k gd now s isSp).1).player = gd.player := rfl

lemma spawnAimedBullet_status (o : Oracle) (k : ℕ) (gd : GameData) (now s : ℚ) :
    ((spawnAimedBullet o k gd now s).1).status = gd.status := rfl

lemma spawnAimedBullet_player (o : Oracle) (k : ℕ) (gd : GameData) (now s : ℚ) :
    ((spawnAimedBullet o k gd now s).1).player = gd.player := rfl

lemma spawnHomingBullet_status (o : Oracle) (k : ℕ) (gd : GameData) (now s : ℚ) :
    ((spawnHomingBullet o k gd now s).1).status = gd.status := rfl

lemma spawnHomingBullet_player (o : Oracle) (k : ℕ) (gd : GameData) (now s : ℚ) :
    ((spawnHomingBullet o k gd now s).1).player = gd.player := rfl

lemma spawnImpossibleWallPattern_status (o : Oracle) (k : ℕ) (gd : GameData)
    (now s t : ℚ) : ((spawnImpossibleWallPattern o k gd now s t).1).status = gd.status := rfl

lemma spawnImpossibleWallPattern_player (o : Oracle) (k : ℕ) (gd : GameData)
    (now s t : ℚ) : ((spawnImpossibleWallPattern o k gd now s t).1).player = gd.player := rfl

lemma genStage1_status (o : Oracle) (k : ℕ) (gd : GameData) (now t lb : ℚ) :
    ((genStage1 o k gd now t lb).1).status = gd.status := by
  simp only [genStage1]
  split_ifs <;> rfl

lemma genStage2_status (o : Oracle) (k : ℕ) (gd : GameData) (now lb lh : ℚ) :
    ((genStage2 o k gd now lb lh).1).status = gd.status := by
  simp only [genStage2]
  split_ifs <;> rfl

lemma genStage3_status (o : Oracle) (k : ℕ) (gd : GameData) (now lb ls : ℚ) :
    ((genStage3 o k gd now lb ls).1).status = gd.status := by
  simp only [genStage3]
  split_ifs <;> rfl

lemma genStage4_status (o : Oracle) (k : ℕ) (gd : GameData) (now lb lh ls : ℚ) :
    ((genStage4 o k gd now lb lh ls).1).status = gd.status := by
  simp only [genStage4]
  split_ifs <;> rfl

lemma genStage5_status (o : Oracle) (k : ℕ) (gd : GameData) (now t lb lp : ℚ) :
    ((genStage5 o k gd now t lb lp).1).status = gd.status := by
  simp only [genStage5]
  split_ifs <;> rfl

lemma genStageInfinite_status (o : Oracle) (k : ℕ) (gd : GameData) (now lb : ℚ) :
    ((genStageInfinite o k gd now lb).1).status = gd.status := by
  simp only [genStageInfinite]
  split_ifs <;> rfl

lemma generateBullets_status (o : Oracle) (k : ℕ) (gd : GameData) (now t : ℚ) :
    ((generateBullets o k gd now t).1).status = gd.status := by
  simp only [generateBullets]
  split_ifs <;>
    simp only [genStage1_status, genStage2_status, genStage3_status, genStage4_status,
      genStage5_status, genStageInfinite_status]

lemma genStage1_player (o : Oracle) (k : ℕ) (gd : GameData) (now t lb : ℚ) :
    ((genStage1 o k gd now t lb).1).player = gd.player := by
  simp only [genStage1]
  split_ifs <;> rfl

lemma genStage2_player (o : Oracle) (k : ℕ) (gd : GameData) (now lb lh : ℚ) :
    ((genStage2 o k gd now lb lh).1).player = gd.player := by
  simp only [genStage2]
  split_ifs <;> rfl

lemma genStage3_player (o : Oracle) (k : ℕ) (gd : GameData) (now lb ls : ℚ) :
    ((genStage3 o k gd now lb ls).1).player = gd.player := by
  simp only [genStage3]
  split_ifs <;> rfl

lemma genStage4_player (o : Oracle) (k : ℕ) (gd : GameData) (now lb lh ls : ℚ) :
    ((genStage4 o k gd now lb lh ls).1).player = gd.player := by
  simp only [genStage4]
  split_ifs <;> rfl

lemma genStage5_player (o : Oracle) (k : ℕ) (gd : GameData) (now t lb lp : ℚ) :
    ((genStage5 o k gd now t lb lp).1).player = gd.player := by
  simp only [genStage5]
  split_ifs <;> rfl

lemma genStageInfinite_player (o : Oracle) (k : ℕ) (gd : GameData) (now lb : ℚ) :
    ((genStageInfinite o k gd now lb).1).player = gd.player := by
  simp only [genStageInfinite]
  split_ifs <;> rfl

lemma generateBullets_player (o : Oracle) (k : ℕ) (gd : GameData) (now t : ℚ) :
    ((generateBullets o k gd now t).1).player = gd.player := by
  simp only [generateBullets]
  split_ifs <;>
    simp only [genStage1_player, genStage2_player, genStage3_player, genStage4_player,
      genStage5_player, genStageInfinite_player]

lemma itemSpawnPhase_status (o : Oracle) (k : ℕ) (gd : GameData) (now : ℚ) :
    ((itemSpawnPhase o k gd now).1).status = gd.status := by
  unfold itemSpawnPhase
  split <;> rfl

lemma itemSpawnPhase_player (o : Oracle) (k : ℕ) (gd : GameData) (now : ℚ) :
    ((itemSpawnPhase o k gd now).1).player = gd.player := by
  unfold itemSpawnPhase
  split <;> rfl

lemma itemSpawnPhase_bullets (o : Oracle) (k : ℕ) (gd : GameData) (now : ℚ) :
    ((itemSpawnPhase o k gd now).1).bullets = gd.bullets := by
  unfold itemSpawnPhase
  split <;> rfl

lemma itemSpawnPhase_mathGems (o : Oracle) (k : ℕ) (gd : GameData) (now : ℚ) :
    ((itemSpawnPhase o k gd now).1).mathGems = gd.mathGems := by
  unfold itemSpawnPhase
  split <;> rfl

lemma expireItems_status (gd : GameData) (now : ℚ) :
    (expireItems gd now).status = gd.status := rfl

lemma expireItems_player (gd : GameData) (now : ℚ) :
    (expireItems gd now).player = gd.player := rfl

lemma expireItems_bullets (gd : GameData) (now : ℚ) :
    (expireItems gd now).bullets = gd.bullets := rfl

lemma expireItems_mathGems (gd : GameData) (now : ℚ) :
    (expireItems gd now).mathGems = gd.mathGems := rfl

lemma gemMaintenance_status (o : Oracle) (k : ℕ) (gd : GameData) (now : ℚ) :
    ((gemMaintenance o k gd now).1).status = gd.status := by
  simp only [gemMaintenance]
  split <;> rfl

lemma gemMaintenance_player (o : Oracle) (k : ℕ) (gd : GameData) (now : ℚ) :
    ((gemMaintenance o k gd now).1).player = gd.player := by
  simp only [gemMaintenance]
  split <;> rfl

lemma gemMaintenance_bullets (o : Oracle) (k : ℕ) (gd : GameData) (now : ℚ) :
    ((gemMaintenance o k gd now).1).bullets = gd.bullets := by
  simp only [gemMaintenance]
  split <;> rfl

lemma expireFloatingTexts_status (gd : GameData) (now : ℚ) :
    (expireFloatingTexts gd now).status = gd.status := rfl

lemma expireFloatingTexts_player (gd : GameData) (now : ℚ) :
    (expireFloatingTexts gd now).player = gd.player := rfl

lemma expireFloatingTexts_bullets (gd : GameData) (now : ℚ) :
    (expireFloatingTexts gd now).bullets = gd.bullets := rfl

lemma expireFloatingTexts_mathGems (gd : GameData) (now : ℚ) :
    (expireFloatingTexts gd now).mathGems = gd.mathGems := rfl

lemma preCollisionState_status (o : Oracle) (k : ℕ) (gd : GameData) (now dt : ℚ) :
    ((preCollisionState o k gd now dt).1).status = gd.status := by
  unfold preCollisionState
  rw [expireFloatingTexts_status, gemMaintenance_status, expireItems_status,
    itemSpawnPhase_status, generateBullets_status, moveBullets_status,
    splitPhase_status, tickTimers_status]

lemma preCollisionState_player (o : Oracle) (k : ℕ) (gd : GameData) (now dt : ℚ) :
    ((preCollisionState o k gd now dt).1).player = gd.player := by
  unfold preCollisionState
  rw [expireFloatingTexts_player, gemMaintenance_player, expireItems_player,
    itemSpawnPhase_player, generateBullets_player, moveBullets_player,
    splitPhase_player, tickTimers_player]

lemma collisionPhase_status (gd : GameData) (now : ℚ) :
    (collisionPhase gd now).status = gd.status := by
  simp only [collisionPhase]
  split_ifs <;> rfl

lemma collisionPhase_bullets (gd : GameData) (now : ℚ) :
    (collisionPhase gd now).bullets = gd.bullets := by
  simp only [collisionPhase]
  split_ifs <;> rfl

lemma collisionPhase_mathGems (gd : GameData) (now : ℚ) :
    (collisionPhase gd now).mathGems = gd.mathGems := by
  simp only [collisionPhase]
  split_ifs <;> rfl

lemma collisionPhase_score (gd : GameData) (now : ℚ) :
    (collisionPhase gd now).player.score = gd.player.score := by
  simp only [collisionPhase]
  split_ifs <;> rfl

lemma itemPickupStep_score (now : ℚ) (st : Player × List Bullet × List Item) (item : Item) :
    ((itemPickupStep now st item).1).score = st.1.score := by
  unfold itemPickupStep
  split
  · cases item.type <;> rfl
  · rfl

lemma itemPickupStep_lives (now : ℚ) (st : Player × List Bullet × List Item) (item : Item) :
    ((itemPickupStep now st item).1).lives = st.1.lives := by
  unfold itemPickupStep
  split
  · cases item.type <;> rfl
  · rfl

lemma foldl_itemPickupStep_score (now : ℚ) (l : List Item)
    (st : Player × List Bullet × List Item) :
    ((l.foldl (itemPickupStep now) st).1).score = st.1.score := by
  induction l generalizing st with
  | nil => rfl
  | cons a t ih => rw [List.foldl_cons, ih, itemPickupStep_score]

lemma foldl_itemPickupStep_lives (now : ℚ) (l : List Item)
    (st : Player × List Bullet × List Item) :
    ((l.foldl (itemPickupStep now) st).1).lives = st.1.lives := by
  induction l generalizing st with
  | nil => rfl
  | cons a t ih => rw [List.foldl_cons, ih, itemPickupStep_lives]

lemma itemPickupPhase_status (gd : GameData) (now : ℚ) :
    (itemPickupPhase gd now).status = gd.status := rfl

lemma itemPickupPhase_mathGems (gd : GameData) (now : ℚ) :
    (itemPickupPhase gd now).mathGems = gd.mathGems := rfl

lemma itemPickupPhase_score (gd : GameData) (now : ℚ) :
    (itemPickupPhase gd now).player.score = gd.player.score := by
  unfold itemPickupPhase
  exact foldl_itemPickupStep_score now gd.items _

lemma gemPickupStep_lives (now : ℚ) (st : Player × List FloatingText × List MathGem)
    (gem : MathGem) : ((gemPickupStep now st gem).1).lives = st.1.lives := by
  unfold gemPickupStep
  split <;> rfl

lemma gemPickupStep_score_nonneg (now : ℚ) (st : Player × List FloatingText × List MathGem)
    (gem : MathGem) (h : 0 ≤ st.1.score) : 0 ≤ ((gemPickupStep now st gem).1).score := by
  unfold gemPickupStep
  split
  · exact le_max_left 0 _
  · exact h

lemma foldl_gemPickupStep_score_nonneg (now : ℚ) (l : List MathGem)
    (st : Player × List FloatingText × List MathGem) (h : 0 ≤ st.1.score) :
    0 ≤ ((l.foldl (gemPickupStep now) st).1).score := by
  induction l generalizing st with
  | nil => exact h
  | cons a t ih =>
    rw [List.foldl_cons]
    exact ih _ (gemPickupStep_score_nonneg now st a h)

lemma gemPickupPhase_status (gd : GameData) (now : ℚ) :
    (gemPickupPhase gd now).status = gd.status := rfl

lemma gemPickupPhase_score_nonneg (gd : GameData) (now : ℚ) (h : 0 ≤ gd.player.score) :
    0 ≤ (gemPickupPhase gd now).player.score := by
  unfold gemPickupPhase
  exact foldl_gemPickupStep_score_nonneg now gd.mathGems _ h

lemma invincibilityExpiryPhase_status (gd : GameData) (now : ℚ) :
    (invincibilityExpiryPhase gd now).status = gd.status := by
  simp only [invincibilityExpiryPhase]
  split <;> rfl

lemma invincibilityExpiryPhase_score (gd : GameData) (now : ℚ) :
    (invincibilityExpiryPhase gd now).player.score = gd.player.score := by
  simp only [invincibilityExpiryPhase]
  split <;> rfl

lemma invincibilityExpiryPhase_mathGems (gd : GameData) (now : ℚ) :
    (invincibilityExpiryPhase gd now).mathGems = gd.mathGems := by
  simp only [invincibilityExpiryPhase]
  split <;> rfl

lemma gameOverPhase_score (gd : GameData) (now : ℚ) :
    (gameOverPhase gd now).player.score = gd.player.score := by
  unfold gameOverPhase
  split <;> rfl

lemma gameOverPhase_mathGems (gd : GameData) (now : ℚ) :
    (gameOverPhase gd now).mathGems = gd.mathGems := by
  unfold gameOverPhase
  split <;> rfl

lemma gameOverPhase_status (gd : GameData) (now : ℚ) :
    (gameOverPhase gd now).status =
      if gd.player.lives ≤ 0 then Status.gameOver else gd.status := by
  unfold gameOverPhase
  split <;> rfl

lemma tickTimers_gameStartTime (gd : GameData) (now : ℚ) :
    (tickTimers gd now).gameStartTime = gd.gameStartTime := rfl

lemma moveBullets_gameStartTime (o : Oracle) (gd : GameData) (dt : ℚ) :
    (moveBullets o gd dt).gameStartTime = gd.gameStartTime := rfl

lemma expireItems_gameStartTime (gd : GameData) (now : ℚ) :
    (expireItems gd now).gameStartTime = gd.gameStartTime := rfl

lemma expireFloatingTexts_gameStartTime (gd : GameData) (now : ℚ) :
    (expireFloatingTexts gd now).gameStartTime = gd.gameStartTime := rfl

lemma itemPickupPhase_gameStartTime (gd : GameData) (now : ℚ) :
    (itemPickupPhase gd now).gameStartTime = gd.gameStartTime := rfl

lemma gemPickupPhase_gameStartTime (gd : GameData) (now : ℚ) :
    (gemPickupPhase gd now).gameStartTime = gd.gameStartTime := rfl

lemma spawnCrossPattern_gameStartTime (gd : GameData) (now x y s : ℚ) :
    (spawnCrossPattern gd now x y s).gameStartTime = gd.gameStartTime := rfl

lemma spawnSideBullet_gameStartTime (o : Oracle) (k : ℕ) (gd : GameData) (now s : ℚ) (isSp : Bool) :
    ((spawnSideBullet o k gd now s isSp).1).gameStartTime = gd.gameStartTime := rfl

lemma spawnAimedBullet_gameStartTime (o : Oracle) (k : ℕ) (gd : GameData) (now s : ℚ) :
    ((spawnAimedBullet o k gd now s).1).gameStartTime = gd.gameStartTime := rfl

lemma spawnHomingBullet_gameStartTime (o : Oracle) (k : ℕ) (gd : GameData) (now s : ℚ) :
    ((spawnHomingBullet o k gd now s).1).gameStartTime = gd.gameStartTime := rfl

lemma spawnImpossibleWallPattern_gameStartTime (o : Oracle) (k : ℕ) (gd : GameData) (now s t : ℚ) :
    ((spawnImpossibleWallPattern o k gd now s t).1).gameStartTime = gd.gameStartTime := rfl

lemma itemSpawnPhase_gameStartTime (o : Oracle) (k : ℕ) (gd : GameData) (now : ℚ) :
    ((itemSpawnPhase o k gd now).1).gameStartTime = gd.gameStartTime := by
  simp only [itemSpawnPhase]
  split_ifs <;> rfl

lemma gemMaintenance_gameStartTime (o : Oracle) (k : ℕ) (gd : GameData) (now : ℚ) :
    ((gemMaintenance o k gd now).1).gameStartTime = gd.gameStartTime := by
  simp only [gemMaintenance]
  split_ifs <;> rfl

lemma collisionPhase_gameStartTime (gd : GameData) (now : ℚ) :
    (collisionPhase gd now).gameStartTime = gd.gameStartTime := by
  simp only [collisionPhase]
  split_ifs <;> rfl

lemma invincibilityExpiryPhase_gameStartTime (gd : GameData) (now : ℚ) :
    (invincibilityExpiryPhase gd now).gameStartTime = gd.gameStartTime := by
  simp only [invincibilityExpiryPhase]
  split_ifs <;> rfl

lemma gameOverPhase_gameStartTime (gd : GameData) (now : ℚ) :
    (gameOverPhase gd now).gameStartTime = gd.gameStartTime := by
  simp only [gameOverPhase]
  split_ifs <;> rfl

lemma foldl_spawnCross_gameStartTime (l : List Bullet) (gd : GameData) (now : ℚ) :
    (l.foldl (fun g b => spawnCrossPattern g now b.x b.y 150) gd).gameStartTime = gd.gameStartTime := by
  induction l generalizing gd with
  | nil => rfl
  | cons a t ih => rw [List.foldl_cons, ih, spawnCrossPattern_gameStartTime]

lemma splitPhase_gameStartTime (gd : GameData) (now : ℚ) :
    (splitPhase gd now).gameStartTime = gd.gameStartTime := by
  unfold splitPhase
  rw [foldl_spawnCross_gameStartTime]

lemma genStage1_gameStartTime (o : Oracle) (k : ℕ) (gd : GameData) (now t lb : ℚ) :
    ((genStage1 o k gd now t lb).1).gameStartTime = gd.gameStartTime := by
  simp only [genStage1]
  split_ifs <;> rfl

lemma genStage2_gameStartTime (o : Oracle) (k : ℕ) (gd : GameData) (now lb lh : ℚ) :
    ((genStage2 o k gd now lb lh).1).gameStartTime = gd.gameStartTime := by
  simp only [genStage2]
  split_ifs <;> rfl

lemma genStage3_gameStartTime (o : Oracle) (k : ℕ) (gd : GameData) (now lb ls : ℚ) :
    ((genStage3 o k gd now lb ls).1).gameStartTime = gd.gameStartTime := by
  simp only [genStage3]
  split_ifs <;> rfl

lemma genStage4_gameStartTime (o : Oracle) (k : ℕ) (gd : GameData) (now lb lh ls : ℚ) :
    ((genStage4 o k gd now lb lh ls).1).gameStartTime = gd.gameStartTime := by
  simp only [genStage4]
  split_ifs <;> rfl

lemma genStage5_gameStartTime (o : Oracle) (k : ℕ) (gd : GameData) (now t lb lp : ℚ) :
    ((genStage5 o k gd now t lb lp).1).gameStartTime = gd.gameStartTime := by
  simp only [genStage5]
  split_ifs <;> rfl

lemma genStageInfinite_gameStartTime (o : Oracle) (k : ℕ) (gd : GameData) (now lb : ℚ) :
    ((genStageInfinite o k gd now lb).1).gameStartTime = gd.gameStartTime := by
  simp only [genStageInfinite]
  split_ifs <;> rfl

lemma generateBullets_gameStartTime (o : Oracle) (k : ℕ) (gd : GameData) (now t : ℚ) :
    ((generateBullets o k gd now t).1).gameStartTime = gd.gameStartTime := by
  simp only [generateBullets]
  split_ifs <;>
    simp only [genStage1_gameStartTime, genStage2_gameStartTime, genStage3_gameStartTime, genStage4_gameStartTime,
      genStage5_gameStartTime, genStageInfinite_gameStartTime]

lemma preCollisionState_gameStartTime (o : Oracle) (k : ℕ) (gd : GameData) (now dt : ℚ) :
    ((preCollisionState o k gd now dt).1).gameStartTime = gd.gameStartTime := by
  unfold preCollisionState
  rw [expireFloatingTexts_gameStartTime, gemMaintenance_gameStartTime, expireItems_gameStartTime,
    itemSpawnPhase_gameStartTime, generateBullets_gameStartTime, moveBullets_gameStartTime,
    splitPhase_gameStartTime, tickTimers_gameStartTime]

lemma tickTimers_totalPausedTime (gd : GameData) (now : ℚ) :
    (tickTimers gd now).totalPausedTime = gd.totalPausedTime := rfl

lemma moveBullets_totalPausedTime (o : Oracle) (gd : GameData) (dt : ℚ) :
    (moveBullets o gd dt).totalPausedTime = gd.totalPausedTime := rfl

lemma expireItems_totalPausedTime (gd : GameData) (now : ℚ) :
    (expireItems gd now).totalPausedTime = gd.totalPausedTime := rfl

lemma expireFloatingTexts_totalPausedTime (gd : GameData) (now : ℚ) :
    (expireFloatingTexts gd now).totalPausedTime = gd.totalPausedTime := rfl

lemma itemPickupPhase_totalPausedTime (gd : GameData) (now : ℚ) :
    (itemPickupPhase gd now).totalPausedTime = gd.totalPausedTime := rfl

lemma gemPickupPhase_totalPausedTime (gd : GameData) (now : ℚ) :
    (gemPickupPhase gd now).totalPausedTime = gd.totalPausedTime := rfl

lemma spawnCrossPattern_totalPausedTime (gd : GameData) (now x y s : ℚ) :
    (spawnCrossPattern gd now x y s).totalPausedTime = gd.totalPausedTime := rfl

lemma spawnSideBullet_totalPausedTime (o : Oracle) (k : ℕ) (gd : GameData) (now s : ℚ) (isSp : Bool) :
    ((spawnSideBullet o k gd now s isSp).1).totalPausedTime = gd.totalPausedTime := rfl

lemma spawnAimedBullet_totalPausedTime (o : Oracle) (k : ℕ) (gd : GameData) (now s : ℚ) :
    ((spawnAimedBullet o k gd now s).1).totalPausedTime = gd.totalPausedTime := rfl

lemma spawnHomingBullet_totalPausedTime (o : Oracle) (k : ℕ) (gd : GameData) (now s : ℚ) :
    ((spawnHomingBullet o k gd now s).1).totalPausedTime = gd.totalPausedTime := rfl

lemma spawnImpossibleWallPattern_totalPausedTime (o : Oracle) (k : ℕ) (gd : GameData) (now s t : ℚ) :
    ((spawnImpossibleWallPattern o k gd now s t).1).totalPausedTime = gd.totalPausedTime := rfl

lemma itemSpawnPhase_totalPausedTime (o : Oracle) (k : ℕ) (gd : GameData) (now : ℚ) :
    ((itemSpawnPhase o k gd now).1).totalPausedTime = gd.totalPausedTime := by
  simp only [itemSpawnPhase]
  split_ifs <;> rfl

lemma gemMaintenance_totalPausedTime (o : Oracle) (k : ℕ) (gd : GameData) (now : ℚ) :
    ((gemMaintenance o k gd now).1).totalPausedTime = gd.totalPausedTime := by
  simp only [gemMaintenance]
  split_ifs <;> rfl

lemma collisionPhase_totalPausedTime (gd : GameData) (now : ℚ) :
    (collisionPhase gd now).totalPausedTime = gd.totalPausedTime := by
  simp only [collisionPhase]
  split_ifs <;> rfl

lemma invincibilityExpiryPhase_totalPausedTime (gd : GameData) (now : ℚ) :
    (invincibilityExpiryPhase gd now).totalPausedTime = gd.totalPausedTime := by
  simp only [invincibilityExpiryPhase]
  split_ifs <;> rfl

lemma gameOverPhase_totalPausedTime (gd : GameData) (now : ℚ) :
    (gameOverPhase gd now).totalPausedTime = gd.totalPausedTime := by
  simp only [gameOverPhase]
  split_ifs <;> rfl

lemma foldl_spawnCross_totalPausedTime (l : List Bullet) (gd : GameData) (now : ℚ) :
    (l.foldl (fun g b => spawnCrossPattern g now b.x b.y 150) gd).totalPausedTime = gd.totalPausedTime := by
  induction l generalizing gd with
  | nil => rfl
  | cons a t ih => rw [List.foldl_cons, ih, spawnCrossPattern_totalPausedTime]

lemma splitPhase_totalPausedTime (gd : GameData) (now : ℚ) :
    (splitPhase gd now).totalPausedTime = gd.totalPausedTime := by
  unfold splitPhase
  rw [foldl_spawnCross_totalPausedTime]

lemma genStage1_totalPausedTime (o : Oracle) (k : ℕ) (gd : GameData) (now t lb : ℚ) :
    ((genStage1 o k gd now t lb).1).totalPausedTime = gd.totalPausedTime := by
  simp only [genStage1]
  split_ifs <;> rfl

lemma genStage2_totalPausedTime (o : Oracle) (k : ℕ) (gd : GameData) (now lb lh : ℚ) :
    ((genStage2 o k gd now lb lh).1).totalPausedTime = gd.totalPausedTime := by
  simp only [genStage2]
  split_ifs <;> rfl

lemma genStage3_totalPausedTime (o : Oracle) (k : ℕ) (gd : GameData) (now lb ls : ℚ) :
    ((genStage3 o k gd now lb ls).1).totalPausedTime = gd.totalPausedTime := by
  simp only [genStage3]
  split_ifs <;> rfl

lemma genStage4_totalPausedTime (o : Oracle) (k : ℕ) (gd : GameData) (now lb lh ls : ℚ) :
    ((genStage4 o k gd now lb lh ls).1).totalPausedTime = gd.totalPausedTime := by
  simp only [genStage4]
  split_ifs <;> rfl

lemma genStage5_totalPausedTime (o : Oracle) (k : ℕ) (gd : GameData) (now t lb lp : ℚ) :
    ((genStage5 o k gd now t lb lp).1).totalPausedTime = gd.totalPausedTime := by
  simp only [genStage5]
  split_ifs <;> rfl

lemma genStageInfinite_totalPausedTime (o : Oracle) (k : ℕ) (gd : GameData) (now lb : ℚ) :
    ((genStageInfinite o k gd now lb).1).totalPausedTime = gd.totalPausedTime := by
  simp only [genStageInfinite]
  split_ifs <;> rfl

lemma generateBullets_totalPausedTime (o : Oracle) (k : ℕ) (gd : GameData) (now t : ℚ) :
    ((generateBullets o k gd now t).1).totalPausedTime = gd.totalPausedTime := by
  simp only [generateBullets]
  split_ifs <;>
    simp only [genStage1_totalPausedTime, genStage2_totalPausedTime, genStage3_totalPausedTime, genStage4_totalPausedTime,
      genStage5_totalPausedTime, genStageInfinite_totalPausedTime]

lemma preCollisionState_totalPausedTime (o : Oracle) (k : ℕ) (gd : GameData) (now dt : ℚ) :
    ((preCollisionState o k gd now dt).1).totalPausedTime = gd.totalPausedTime := by
  unfold preCollisionState
  rw [expireFloatingTexts_totalPausedTime, gemMaintenance_totalPausedTime, expireItems_totalPausedTime,
    itemSpawnPhase_totalPausedTime, generateBullets_totalPausedTime, moveBullets_totalPausedTime,
    splitPhase_totalPausedTime, tickTimers_totalPausedTime]

lemma tickTimers_width (gd : GameData) (now : ℚ) :
    (tickTimers gd now).width = gd.width := rfl

lemma moveBullets_width (o : Oracle) (gd : GameData) (dt : ℚ) :
    (moveBullets o gd dt).width = gd.width := rfl

lemma expireItems_width (gd : GameData) (now : ℚ) :
    (expireItems gd now).width = gd.width := rfl

lemma expireFloatingTexts_width (gd : GameData) (now : ℚ) :
    (expireFloatingTexts gd now).width = gd.width := rfl

lemma itemPickupPhase_width (gd : GameData) (now : ℚ) :
    (itemPickupPhase gd now).width = gd.width := rfl

lemma gemPickupPhase_width (gd : GameData) (now : ℚ) :
    (gemPickupPhase gd now).width = gd.width := rfl

lemma spawnCrossPattern_width (gd : GameData) (now x y s : ℚ) :
    (spawnCrossPattern gd now x y s).width = gd.width := rfl

lemma spawnSideBullet_width (o : Oracle) (k : ℕ) (gd : GameData) (now s : ℚ) (isSp : Bool) :
    ((spawnSideBullet o k gd now s isSp).1).width = gd.width := rfl

lemma spawnAimedBullet_width (o : Oracle) (k : ℕ) (gd : GameData) (now s : ℚ) :
    ((spawnAimedBullet o k gd now s).1).width = gd.width := rfl

lemma spawnHomingBullet_width (o : Oracle) (k : ℕ) (gd : GameData) (now s : ℚ) :
    ((spawnHomingBullet o k gd now s).1).width = gd.width := rfl

lemma spawnImpossibleWallPattern_width (o : Oracle) (k : ℕ) (gd : GameData) (now s t : ℚ) :
    ((spawnImpossibleWallPattern o k gd now s t).1).width = gd.width := rfl

lemma itemSpawnPhase_width (o : Oracle) (k : ℕ) (gd : GameData) (now : ℚ) :
    ((itemSpawnPhase o k gd now).1).width = gd.width := by
  simp only [itemSpawnPhase]
  split_ifs <;> rfl

lemma gemMaintenance_width (o : Oracle) (k : ℕ) (gd : GameData) (now : ℚ) :
    ((gemMaintenance o k gd now).1).width = gd.width := by
  simp only [gemMaintenance]
  split_ifs <;> rfl

lemma collisionPhase_width (gd : GameData) (now : ℚ) :
    (collisionPhase gd now).width = gd.width := by
  simp only [collisionPhase]
  split_ifs <;> rfl

lemma invincibilityExpiryPhase_width (gd : GameData) (now : ℚ) :
    (invincibilityExpiryPhase gd now).width = gd.width := by
  simp only [invincibilityExpiryPhase]
  split_ifs <;> rfl

lemma gameOverPhase_width (gd : GameData) (now : ℚ) :
    (gameOverPhase gd now).width = gd.width := by
  simp only [gameOverPhase]
  split_ifs <;> rfl

lemma foldl_spawnCross_width (l : List Bullet) (gd : GameData) (now : ℚ) :
    (l.foldl (fun g b => spawnCrossPattern g now b.x b.y 150) gd).width = gd.width := by
  induction l generalizing gd with
  | nil => rfl
  | cons a t ih => rw [List.foldl_cons, ih, spawnCrossPattern_width]

lemma splitPhase_width (gd : GameData) (now : ℚ) :
    (splitPhase gd now).width = gd.width := by
  unfold splitPhase
  rw [foldl_spawnCross_width]

lemma genStage1_width (o : Oracle) (k : ℕ) (gd : GameData) (now t lb : ℚ) :
    ((genStage1 o k gd now t lb).1).width = gd.width := by
  simp only [genStage1]
  split_ifs <;> rfl

lemma genStage2_width (o : Oracle) (k : ℕ) (gd : GameData) (now lb lh : ℚ) :
    ((genStage2 o k gd now lb lh).1).width = gd.width := by
  simp only [genStage2]
  split_ifs <;> rfl

lemma genStage3_width (o : Oracle) (k : ℕ) (gd : GameData) (now lb ls : ℚ) :
    ((genStage3 o k gd now lb ls).1).width = gd.width := by
  simp only [genStage3]
  split_ifs <;> rfl

lemma genStage4_width (o : Oracle) (k : ℕ) (gd : GameData) (now lb lh ls : ℚ) :
    ((genStage4 o k gd now lb lh ls).1).width = gd.width := by
  simp only [genStage4]
  split_ifs <;> rfl

lemma genStage5_width (o : Oracle) (k : ℕ) (gd : GameData) (now t lb lp : ℚ) :
    ((genStage5 o k gd now t lb lp).1).width = gd.width := by
  simp only [genStage5]
  split_ifs <;> rfl

lemma genStageInfinite_width (o : Oracle) (k : ℕ) (gd : GameData) (now lb : ℚ) :
    ((genStageInfinite o k gd now lb).1).width = gd.width := by
  simp only [genStageInfinite]
  split_ifs <;> rfl

lemma generateBullets_width (o : Oracle) (k : ℕ) (gd : GameData) (now t : ℚ) :
    ((generateBullets o k gd now t).1).width = gd.width := by
  simp only [generateBullets]
  split_ifs <;>
    simp only [genStage1_width, genStage2_width, genStage3_width, genStage4_width,
      genStage5_width, genStageInfinite_width]

lemma preCollisionState_width (o : Oracle) (k : ℕ) (gd : GameData) (now dt : ℚ) :
    ((preCollisionState o k gd now dt).1).width = gd.width := by
  unfold preCollisionState
  rw [expireFloatingTexts_width, gemMaintenance_width, expireItems_width,
    itemSpawnPhase_width, generateBullets_width, moveBullets_width,
    splitPhase_width, tickTimers_width]

lemma tickTimers_height (gd : GameData) (now : ℚ) :
    (tickTimers gd now).height = gd.height := rfl

lemma moveBullets_height (o : Oracle) (gd : GameData) (dt : ℚ) :
    (moveBullets o gd dt).height = gd.height := rfl

lemma expireItems_height (gd : GameData) (now : ℚ) :
    (expireItems gd now).height = gd.height := rfl

lemma expireFloatingTexts_height (gd : GameData) (now : ℚ) :
    (expireFloatingTexts gd now).height = gd.height := rfl

lemma itemPickupPhase_height (gd : GameData) (now : ℚ) :
    (itemPickupPhase gd now).height = gd.height := rfl

lemma gemPickupPhase_height (gd : GameData) (now : ℚ) :
    (gemPickupPhase gd now).height = gd.height := rfl

lemma spawnCrossPattern_height (gd : GameData) (now x y s : ℚ) :
    (spawnCrossPattern gd now x y s).height = gd.height := rfl

lemma spawnSideBullet_height (o : Oracle) (k : ℕ) (gd : GameData) (now s : ℚ) (isSp : Bool) :
    ((spawnSideBullet o k gd now s isSp).1).height = gd.height := rfl

lemma spawnAimedBullet_height (o : Oracle) (k : ℕ) (gd : GameData) (now s : ℚ) :
    ((spawnAimedBullet o k gd now s).1).height = gd.height := rfl

lemma spawnHomingBullet_height (o : Oracle) (k : ℕ) (gd : GameData) (now s : ℚ) :
    ((spawnHomingBullet o k gd now s).1).height = gd.height := rfl

lemma spawnImpossibleWallPattern_height (o : Oracle) (k : ℕ) (gd : GameData) (now s t : ℚ) :
    ((spawnImpossibleWallPattern o k gd now s t).1).height = gd.height := rfl

lemma itemSpawnPhase_height (o : Oracle) (k : ℕ) (gd : GameData) (now : ℚ) :
    ((itemSpawnPhase o k gd now).1).height = gd.height := by
  simp only [itemSpawnPhase]
  split_ifs <;> rfl

lemma gemMaintenance_height (o : Oracle) (k : ℕ) (gd : GameData) (now : ℚ) :
    ((gemMaintenance o k gd now).1).height = gd.height := by
  simp only [gemMaintenance]
  split_ifs <;> rfl

lemma collisionPhase_height (gd : GameData) (now : ℚ) :
    (collisionPhase gd now).height = gd.height := by
  simp only [collisionPhase]
  split_ifs <;> rfl

lemma invincibilityExpiryPhase_height (gd : GameData) (now : ℚ) :
    (invincibilityExpiryPhase gd now).height = gd.height := by
  simp only [invincibilityExpiryPhase]
  split_ifs <;> rfl

lemma gameOverPhase_height (gd : GameData) (now : ℚ) :
    (gameOverPhase gd now).height = gd.height := by
  simp only [gameOverPhase]
  split_ifs <;> rfl

lemma foldl_spawnCross_height (l : List Bullet) (gd : GameData) (now : ℚ) :
    (l.foldl (fun g b => spawnCrossPattern g now b.x b.y 150) gd).height = gd.height := by
  induction l generalizing gd with
  | nil => rfl
  | cons a t ih => rw [List.foldl_cons, ih, spawnCrossPattern_height]

lemma splitPhase_height (gd : GameData) (now : ℚ) :
    (splitPhase gd now).height = gd.height := by
  unfold splitPhase
  rw [foldl_spawnCross_height]

lemma genStage1_height (o : Oracle) (k : ℕ) (gd : GameData) (now t lb : ℚ) :
    ((genStage1 o k gd now t lb).1).height = gd.height := by
  simp only [genStage1]
  split_ifs <;> rfl

lemma genStage2_height (o : Oracle) (k : ℕ) (gd : GameData) (now lb lh : ℚ) :
    ((genStage2 o k gd now lb lh).1).height = gd.height := by
  simp only [genStage2]
  split_ifs <;> rfl

lemma genStage3_height (o : Oracle) (k : ℕ) (gd : GameData) (now lb ls : ℚ) :
    ((genStage3 o k gd now lb ls).1).height = gd.height := by
  simp only [genStage3]
  split_ifs <;> rfl

lemma genStage4_height (o : Oracle) (k : ℕ) (gd : GameData) (now lb lh ls : ℚ) :
    ((genStage4 o k gd now lb lh ls).1).height = gd.height := by
  simp only [genStage4]
  split_ifs <;> rfl

lemma genStage5_height (o : Oracle) (k : ℕ) (gd : GameData) (now t lb lp : ℚ) :
    ((genStage5 o k gd now t lb lp).1).height = gd.height := by
  simp only [genStage5]
  split_ifs <;> rfl

lemma genStageInfinite_height (o : Oracle) (k : ℕ) (gd : GameData) (now lb : ℚ) :
    ((genStageInfinite o k gd now lb).1).height = gd.height := by
  simp only [genStageInfinite]
  split_ifs <;> rfl

lemma generateBullets_height (o : Oracle) (k : ℕ) (gd : GameData) (now t : ℚ) :
    ((generateBullets o k gd now t).1).height = gd.height := by
  simp only [generateBullets]
  split_ifs <;>
    simp only [genStage1_height, genStage2_height, genStage3_height, genStage4_height,
      genStage5_height, genStageInfinite_height]

lemma preCollisionState_height (o : Oracle) (k : ℕ) (gd : GameData) (now dt : ℚ) :
    ((preCollisionState o k gd now dt).1).height = gd.height := by
  unfold preCollisionState
  rw [expireFloatingTexts_height, gemMaintenance_height, expireItems_height,
    itemSpawnPhase_height, generateBullets_height, moveBullets_height,
    splitPhase_height, tickTimers_height]

-- Status characterisation of a full `updateGameLogic` tick.

lemma updateGameLogic_status_shape (o : Oracle) (k : ℕ) (gd : GameData) (now dt : ℚ)
    (hc : ¬ stageClearCondition gd now) :
    ((updateGameLogic o k gd now dt).1).status =
      if (invincibilityExpiryPhase (gemPickupPhase (itemPickupPhase (collisionPhase
          (preCollisionState o k gd now dt).1 now) now) now) now).player.lives ≤ 0
      then Status.gameOver else gd.status := by
  simp only [updateGameLogic, hc, if_false, gameOverPhase_status,
    invincibilityExpiryPhase_status, gemPickupPhase_status, itemPickupPhase_status,
    collisionPhase_status, preCollisionState_status]

lemma updateGameLogic_status_iff (o : Oracle) (k : ℕ) (gd : GameData) (now dt : ℚ)
    (h : gd.status = Status.playing) :
    (((updateGameLogic o k gd now dt).1).status = Status.stageClear ↔
      stageClearCondition gd now) := by
  by_cases hc : stageClearCondition gd now
  · simp [updateGameLogic, hc]
  · rw [updateGameLogic_status_shape o k gd now dt hc]
    constructor
    · intro habs
      rcases ite_eq_iff.mp habs with ⟨hcnd, habs2⟩ | ⟨hcnd, habs2⟩
      · cases habs2
      · rw [h] at habs2
        cases habs2
    · intro hcond
      exact absurd hcond hc

/-- C1: for a session in status Playing, the tick sets status to StageClear
exactly when the effective stage-elapsed time (wall time since stage start
minus paused time accrued during this stage) is at least the stage duration
and the stage index is below 6; in particular for stage ≥ 6 the transition
never occurs, regardless of elapsed time. -/
theorem playing_to_stageClear_iff (o : Oracle) (k : ℕ) (gd : GameData) (now dt : ℚ)
    (h : gd.status = Status.playing) :
    (((updateGameLogic o k gd now dt).1).status = Status.stageClear ↔
      ((now - gd.stageStartTime) - (gd.totalPausedTime - gd.pausedTimeAtStageStart)) / 1000 ≥
        gd.stageDuration ∧ gd.stage < 6) :=
  updateGameLogic_status_iff o k gd now dt h

/-- Witness for C1: on a fresh stage-1 session started at t = 1000 with a
60-second stage, the tick at t = 61000 clears the stage and the tick at
t = 2000 does not. -/
theorem playing_to_stageClear_iff_witness :
    gd0.status = Status.playing ∧
    (((updateGameLogic oracle0 0 gd0 61000 16).1).status = Status.stageClear ↔
      ((61000 - gd0.stageStartTime) - (gd0.totalPausedTime - gd0.pausedTimeAtStageStart)) / 1000 ≥
        gd0.stageDuration ∧ gd0.stage < 6) ∧
    ((61000 - gd0.stageStartTime) - (gd0.totalPausedTime - gd0.pausedTimeAtStageStart)) / 1000 ≥
      gd0.stageDuration ∧ gd0.stage < 6 := by
  refine ⟨rfl, playing_to_stageClear_iff oracle0 0 gd0 61000 16 rfl, ?_, ?_⟩
  · norm_num [gd0, handleStartGame, oracle0, getRandom, STAGE_DURATION]
  · norm_num [gd0, handleStartGame, oracle0, getRandom]

/-- C10: on a tick where the stage-clear condition fires, the update
returns immediately after setting status to StageClear, remainingTime to 0
and the pause marker; every other field of the session — bullets, items,
gems, and the whole player (lives, score, position, invincibility) — is
returned unchanged. -/
theorem stageClear_early_return (o : Oracle) (k : ℕ) (gd : GameData) (now dt : ℚ)
    (h : stageClearCondition gd now) :
    updateGameLogic o k gd now dt =
      ({ gd with
         status := Status.stageClear, remainingTime := 0, pauseStartTime := now }, k) := by
  unfold updateGameLogic
  rw [if_pos h]

/-- Witness for C10: the stage-clear tick at t = 70000 on the fresh session
leaves everything but status, remainingTime and pauseStartTime unchanged. -/
theorem stageClear_early_return_witness :
    stageClearCondition gd0 70000 ∧
    updateGameLogic oracle0 0 gd0 70000 16 =
      ({ gd0 with
         status := Status.stageClear, remainingTime := 0, pauseStartTime := 70000 }, 0) := by
  have hcond : stageClearCondition gd0 70000 := by
    norm_num [stageClearCondition, gd0, handleStartGame, oracle0, getRandom, STAGE_DURATION]
  exact ⟨hcond, stageClear_early_return oracle0 0 gd0 70000 16 hcond⟩

-- Final-score characterisation for C2.

lemma updateGameLogic_finalScore (o : Oracle) (k : ℕ) (gd : GameData) (now dt : ℚ)
    (h : gd.status = Status.playing)
    (hgo : ((updateGameLogic o k gd now dt).1).status = Status.gameOver) :
    ((updateGameLogic o k gd now dt).1).finalScore =
      some (((updateGameLogic o k gd now dt).1).player.score +
        ((Int.floor (((now - gd.gameStartTime) - gd.totalPausedTime) / 1000) : ℤ) : ℚ) * 10) := by
  by_cases hc : stageClearCondition gd now
  · rw [stageClear_early_return o k gd now dt hc] at hgo
    cases hgo
  · have hshape := updateGameLogic_status_shape o k gd now dt hc
    rw [hshape] at hgo
    set inner := invincibilityExpiryPhase (gemPickupPhase (itemPickupPhase (collisionPhase
      (preCollisionState o k gd now dt).1 now) now) now) now with hinner
    by_cases hl : inner.player.lives ≤ 0
    · have hupd : (updateGameLogic o k gd now dt).1 = gameOverPhase inner now := by
        simp only [updateGameLogic, hc, if_false, hinner]
      rw [hupd]
      unfold gameOverPhase
      rw [if_pos hl]
      have hgs : inner.gameStartTime = gd.gameStartTime := by
        rw [hinner, invincibilityExpiryPhase_gameStartTime, gemPickupPhase_gameStartTime,
          itemPickupPhase_gameStartTime, collisionPhase_gameStartTime,
          preCollisionState_gameStartTime]
      have hps : inner.totalPausedTime = gd.totalPausedTime := by
        rw [hinner, invincibilityExpiryPhase_totalPausedTime, gemPickupPhase_totalPausedTime,
          itemPickupPhase_totalPausedTime, collisionPhase_totalPausedTime,
          preCollisionState_totalPausedTime]
      rw [hgs, hps]
    · rw [if_neg hl, h] at hgo
      cases hgo

/-- C2: on the tick of a playing session whose result is GameOver, the
frozen final score equals the resulting player score plus
floor(effective session elapsed seconds) × 10, where the effective elapsed
time is wall time since session start minus total paused time; and a
session already in GameOver is left completely unchanged by the loop, so
the final score is computed exactly once. -/
theorem finalScore_on_gameOver (o : Oracle) (k k2 : ℕ) (gd gd2 : GameData)
    (target target2 : Option (ℚ × ℚ)) (lastFrameTime now : ℚ)
    (h : gd.status = Status.playing) (h2 : gd2.status = Status.gameOver) :
    (((gameLoop o k gd target lastFrameTime now).1).status = Status.gameOver →
      ((gameLoop o k gd target lastFrameTime now).1).finalScore =
        some (((gameLoop o k gd target lastFrameTime now).1).player.score +
          ((Int.floor (((now - gd.gameStartTime) - gd.totalPausedTime) / 1000) : ℤ) : ℚ) * 10)) ∧
    gameLoop o k2 gd2 target2 lastFrameTime now = (gd2, target2, k2) := by
  constructor
  · intro hgo
    have hng : ¬ gd.status ≠ Status.playing := fun hx => hx h
    unfold gameLoop at hgo ⊢
    rw [if_neg hng] at hgo ⊢
    exact updateGameLogic_finalScore o k _ now _ h hgo
  · have hne : gd2.status ≠ Status.playing := by
      rw [h2]
      exact fun hx => Status.noConfusion hx
    unfold gameLoop
    rw [if_pos hne]


/-- Witness for C2: in the baseline session with a bullet on the player,
the tick at t = 1000 kills the player, and the frozen final score obeys
the formula; a session already in GameOver is left untouched. -/
theorem finalScore_on_gameOver_witness :
    gdDeath.status = Status.playing ∧ gdOver.status = Status.gameOver ∧
    ((gameLoop oracle0 0 gdDeath none 1000 1000).1).status = Status.gameOver ∧
    ((((gameLoop oracle0 0 gdDeath none 1000 1000).1).status = Status.gameOver →
      ((gameLoop oracle0 0 gdDeath none 1000 1000).1).finalScore =
        some (((gameLoop oracle0 0 gdDeath none 1000 1000).1).player.score +
          ((Int.floor (((1000 - gdDeath.gameStartTime) - gdDeath.totalPausedTime) / 1000) : ℤ) : ℚ) * 10)) ∧
    gameLoop oracle0 0 gdOver none 1000 1000 = (gdOver, none, 0)) := by
  refine ⟨rfl, rfl, ?_,
    finalScore_on_gameOver oracle0 0 0 gdDeath gdOver none none 1000 1000 rfl rfl⟩
  norm_num [gameLoop, movePlayer, updateGameLogic, stageClearCondition, preCollisionState,
    tickTimers, splitPhase, moveBullets, generateBullets, genStage2, spawnSideBullet,
    spawnHomingBullet, getRandom, itemSpawnPhase, expireItems, gemMaintenance,
    expireFloatingTexts, collisionPhase, bulletHitsPlayer, itemPickupPhase,
    itemPickupStep, gemPickupPhase, gemPickupStep, playerTouchesGem,
    playerTouchesItem, gemScoreChange, invincibilityExpiryPhase, gameOverPhase,
    gdDeath, bDeath, gdBase, playerBase, gemFar, oracle0, BULLET_SIZE, PLAYER_SIZE,
    ITEM_SIZE, PLAYER_HITBOX_PADDING]

-- Pause accounting for C3.

/-- C3: a single pause of length P recorded during the current stage delays
the stage-clear transition by exactly P: after pausing at t0 and resuming
at t0 + P, the tick at wall time `now` clears the stage iff
now ≥ stageStart + 1000·S + (paused time from earlier in this stage) + P
(stage < 6); and a stage transition snapshots the cumulative paused time
into the paused-at-stage-start baseline, isolating later stages from
earlier pauses. -/
theorem pause_excluded_from_stage_timer (o : Oracle) (k k2 : ℕ) (gd gd2 : GameData)
    (t0 P now dt now2 : ℚ) (h : gd.status = Status.playing) (ht0 : 0 < t0) :
    (((updateGameLogic o k (resumeGame (pauseGame gd t0) (t0 + P)) now dt).1).status =
        Status.stageClear ↔
      (now ≥ gd.stageStartTime + gd.stageDuration * 1000 +
        (gd.totalPausedTime - gd.pausedTimeAtStageStart) + P ∧ gd.stage < 6)) ∧
    ((handleNextStage o k2 gd2 now2).1).pausedTimeAtStageStart =
      ((handleNextStage o k2 gd2 now2).1).totalPausedTime := by
  constructor
  · have hgdp : resumeGame (pauseGame gd t0) (t0 + P) =
        { gd with
          totalPausedTime := gd.totalPausedTime + (t0 + P - t0), pauseStartTime := 0 } := by
      simp [pauseGame, resumeGame, h, ht0]
    have hst : (resumeGame (pauseGame gd t0) (t0 + P)).status = Status.playing := by
      rw [hgdp]
      exact h
    rw [updateGameLogic_status_iff o k _ now dt hst, hgdp]
    unfold stageClearCondition
    constructor
    · rintro ⟨h1, h2⟩
      refine ⟨?_, h2⟩
      rw [ge_iff_le, le_div_iff₀ (by norm_num : (0:ℚ) < 1000)] at h1
      simp only at h1 ⊢
      linarith
    · rintro ⟨h1, h2⟩
      refine ⟨?_, h2⟩
      rw [ge_iff_le, le_div_iff₀ (by norm_num : (0:ℚ) < 1000)]
      simp only
      linarith
  · rfl

/-- Witness for C3: pausing the baseline session at t = 500 for 2000 ms
makes the stage clear exactly at t = 62000 = stageStart + 60·1000 + 2000. -/
theorem pause_excluded_from_stage_timer_witness :
    gdBase.status = Status.playing ∧ (0 : ℚ) < 500 ∧
    ((updateGameLogic oracle0 0 (resumeGame (pauseGame gdBase 500) (500 + 2000)) 62000 0).1).status =
      Status.stageClear ∧
    ¬ ((updateGameLogic oracle0 0 (resumeGame (pauseGame gdBase 500) (500 + 2000)) 61999 0).1).status =
      Status.stageClear ∧
    ((handleNextStage oracle0 0 gdBase 1000).1).pausedTimeAtStageStart =
      ((handleNextStage oracle0 0 gdBase 1000).1).totalPausedTime := by
  have hA := pause_excluded_from_stage_timer oracle0 0 0 gdBase gdBase 500 2000 62000 0 1000
    rfl (by norm_num)
  have hB := pause_excluded_from_stage_timer oracle0 0 0 gdBase gdBase 500 2000 61999 0 1000
    rfl (by norm_num)
  refine ⟨rfl, by norm_num, ?_, ?_, hA.2⟩
  · exact hA.1.mpr (by norm_num [gdBase])
  · intro habs
    have := hB.1.mp habs
    rw [gdBase] at this
    simp only at this
    norm_num at this

-- Gem invariant (C4).

/-- Counterexample to C4 as stated: on a playing tick in which the player
overlaps the single gem, the gem is consumed after the respawn check
already ran, so the tick completes with zero gems in the arena (the
replacement only appears on the next tick). -/
theorem gem_invariant_counterexample :
    gdC4.status = Status.playing ∧ gdC4.mathGems.length = 1 ∧
    ((updateGameLogic oracle0 0 gdC4 1000 0).1).status = Status.playing ∧
    ¬ ((updateGameLogic oracle0 0 gdC4 1000 0).1).mathGems.length = 1 := by
  have hgems : ((updateGameLogic oracle0 0 gdC4 1000 0).1).mathGems = [] := by
    norm_num [updateGameLogic, stageClearCondition, preCollisionState, tickTimers,
      splitPhase, moveBullets, generateBullets, genStage2, spawnSideBullet,
      spawnHomingBullet, getRandom, itemSpawnPhase, expireItems, gemMaintenance,
      expireFloatingTexts, collisionPhase, bulletHitsPlayer, itemPickupPhase,
      itemPickupStep, gemPickupPhase, gemPickupStep, playerTouchesGem,
      playerTouchesItem, gemScoreChange, invincibilityExpiryPhase, gameOverPhase,
      gdC4, gdBase, playerBase, gemHere, gemFar, oracle0, BULLET_SIZE, PLAYER_SIZE,
      ITEM_SIZE, PLAYER_HITBOX_PADDING]
  refine ⟨rfl, rfl, ?_, ?_⟩
  · norm_num [updateGameLogic, stageClearCondition, preCollisionState, tickTimers,
      splitPhase, moveBullets, generateBullets, genStage2, spawnSideBullet,
      spawnHomingBullet, getRandom, itemSpawnPhase, expireItems, gemMaintenance,
      expireFloatingTexts, collisionPhase, bulletHitsPlayer, itemPickupPhase,
      itemPickupStep, gemPickupPhase, gemPickupStep, playerTouchesGem,
      playerTouchesItem, gemScoreChange, invincibilityExpiryPhase, gameOverPhase,
      gdC4, gdBase, playerBase, gemHere, gemFar, oracle0, BULLET_SIZE, PLAYER_SIZE,
      ITEM_SIZE, PLAYER_HITBOX_PADDING]
  · rw [hgems]
    norm_num
lemma spawnCrossPattern_mathGems (gd : GameData) (now x y s : ℚ) :
    (spawnCrossPattern gd now x y s).mathGems = gd.mathGems := rfl

lemma foldl_spawnCross_mathGems (l : List Bullet) (gd : GameData) (now : ℚ) :
    (l.foldl (fun g b => spawnCrossPattern g now b.x b.y 150) gd).mathGems = gd.mathGems := by
  induction l generalizing gd with
  | nil => rfl
  | cons a t ih => rw [List.foldl_cons, ih, spawnCrossPattern_mathGems]

lemma splitPhase_mathGems (gd : GameData) (now : ℚ) :
    (splitPhase gd now).mathGems = gd.mathGems := by
  unfold splitPhase
  rw [foldl_spawnCross_mathGems]

lemma moveBullets_mathGems (o : Oracle) (gd : GameData) (dt : ℚ) :
    (moveBullets o gd dt).mathGems = gd.mathGems := rfl

lemma spawnSideBullet_mathGems (o : Oracle) (k : ℕ) (gd : GameData) (now s : ℚ) (isSp : Bool) :
    ((spawnSideBullet o k gd now s isSp).1).mathGems = gd.mathGems := rfl

lemma spawnAimedBullet_mathGems (o : Oracle) (k : ℕ) (gd : GameData) (now s : ℚ) :
    ((spawnAimedBullet o k gd now s).1).mathGems = gd.mathGems := rfl

lemma spawnHomingBullet_mathGems (o : Oracle) (k : ℕ) (gd : GameData) (now s : ℚ) :
    ((spawnHomingBullet o k gd now s).1).mathGems = gd.mathGems := rfl

lemma spawnImpossibleWallPattern_mathGems (o : Oracle) (k : ℕ) (gd : GameData) (now s t : ℚ) :
    ((spawnImpossibleWallPattern o k gd now s t).1).mathGems = gd.mathGems := rfl

lemma genStage1_mathGems (o : Oracle) (k : ℕ) (gd : GameData) (now t lb : ℚ) :
    ((genStage1 o k gd now t lb).1).mathGems = gd.mathGems := by
  simp only [genStage1]
  split_ifs <;> rfl

lemma genStage2_mathGems (o : Oracle) (k : ℕ) (gd : GameData) (now lb lh : ℚ) :
    ((genStage2 o k gd now lb lh).1).mathGems = gd.mathGems := by
  simp only [genStage2]
  split_ifs <;> rfl

lemma genStage3_mathGems (o : Oracle) (k : ℕ) (gd : GameData) (now lb ls : ℚ) :
    ((genStage3 o k gd now lb ls).1).mathGems = gd.mathGems := by
  simp only [genStage3]
  split_ifs <;> rfl

lemma genStage4_mathGems (o : Oracle) (k : ℕ) (gd : GameData) (now lb lh ls : ℚ) :
    ((genStage4 o k gd now lb lh ls).1).mathGems = gd.mathGems := by
  simp only [genStage4]
  split_ifs <;> rfl

lemma genStage5_mathGems (o : Oracle) (k : ℕ) (gd : GameData) (now t lb lp : ℚ) :
    ((genStage5 o k gd now t lb lp).1).mathGems = gd.mathGems := by
  simp only [genStage5]
  split_ifs <;> rfl

lemma genStageInfinite_mathGems (o : Oracle) (k : ℕ) (gd : GameData) (now lb : ℚ) :
    ((genStageInfinite o k gd now lb).1).mathGems = gd.mathGems := by
  simp only [genStageInfinite]
  split_ifs <;> rfl

lemma generateBullets_mathGems (o : Oracle) (k : ℕ) (gd : GameData) (now t : ℚ) :
    ((generateBullets o k gd now t).1).mathGems = gd.mathGems := by
  simp only [generateBullets]
  split_ifs <;>
    simp only [genStage1_mathGems, genStage2_mathGems, genStage3_mathGems, genStage4_mathGems,
      genStage5_mathGems, genStageInfinite_mathGems]

lemma spawnCrossPattern_items (gd : GameData) (now x y s : ℚ) :
    (spawnCrossPattern gd now x y s).items = gd.items := rfl

lemma foldl_spawnCross_items (l : List Bullet) (gd : GameData) (now : ℚ) :
    (l.foldl (fun g b => spawnCrossPattern g now b.x b.y 150) gd).items = gd.items := by
  induction l generalizing gd with
  | nil => rfl
  | cons a t ih => rw [List.foldl_cons, ih, spawnCrossPattern_items]

lemma splitPhase_items (gd : GameData) (now : ℚ) :
    (splitPhase gd now).items = gd.items := by
  unfold splitPhase
  rw [foldl_spawnCross_items]

lemma moveBullets_items (o : Oracle) (gd : GameData) (dt : ℚ) :
    (moveBullets o gd dt).items = gd.items := rfl

lemma spawnSideBullet_items (o : Oracle) (k : ℕ) (gd : GameData) (now s : ℚ) (isSp : Bool) :
    ((spawnSideBullet o k gd now s isSp).1).items = gd.items := rfl

lemma spawnAimedBullet_items (o : Oracle) (k : ℕ) (gd : GameData) (now s : ℚ) :
    ((spawnAimedBullet o k gd now s).1).items = gd.items := rfl

lemma spawnHomingBullet_items (o : Oracle) (k : ℕ) (gd : GameData) (now s : ℚ) :
    ((spawnHomingBullet o k gd now s).1).items = gd.items := rfl

lemma spawnImpossibleWallPattern_items (o : Oracle) (k : ℕ) (gd : GameData) (now s t : ℚ) :
    ((spawnImpossibleWallPattern o k gd now s t).1).items = gd.items := rfl

lemma genStage1_items (o : Oracle) (k : ℕ) (gd : GameData) (now t lb : ℚ) :
    ((genStage1 o k gd now t lb).1).items = gd.items := by
  simp only [genStage1]
  split_ifs <;> rfl

lemma genStage2_items (o : Oracle) (k : ℕ) (gd : GameData) (now lb lh : ℚ) :
    ((genStage2 o k gd now lb lh).1).items = gd.items := by
  simp only [genStage2]
  split_ifs <;> rfl

lemma genStage3_items (o : Oracle) (k : ℕ) (gd : GameData) (now lb ls : ℚ) :
    ((genStage3 o k gd now lb ls).1).items = gd.items := by
  simp only [genStage3]
  split_ifs <;> rfl

lemma genStage4_items (o : Oracle) (k : ℕ) (gd : GameData) (now lb lh ls : ℚ) :
    ((genStage4 o k gd now lb lh ls).1).items = gd.items := by
  simp only [genStage4]
  split_ifs <;> rfl

lemma genStage5_items (o : Oracle) (k : ℕ) (gd : GameData) (now t lb lp : ℚ) :
    ((genStage5 o k gd now t lb lp).1).items = gd.items := by
  simp only [genStage5]
  split_ifs <;> rfl

lemma genStageInfinite_items (o : Oracle) (k : ℕ) (gd : GameData) (now lb : ℚ) :
    ((genStageInfinite o k gd now lb).1).items = gd.items := by
  simp only [genStageInfinite]
  split_ifs <;> rfl

lemma generateBullets_items (o : Oracle) (k : ℕ) (gd : GameData) (now t : ℚ) :
    ((generateBullets o k gd now t).1).items = gd.items := by
  simp only [generateBullets]
  split_ifs <;>
    simp only [genStage1_items, genStage2_items, genStage3_items, genStage4_items,
      genStage5_items, genStageInfinite_items]

lemma spawnCrossPattern_nextItemSpawnTime (gd : GameData) (now x y s : ℚ) :
    (spawnCrossPattern gd now x y s).nextItemSpawnTime = gd.nextItemSpawnTime := rfl

lemma foldl_spawnCross_nextItemSpawnTime (l : List Bullet) (gd : GameData) (now : ℚ) :
    (l.foldl (fun g b => spawnCrossPattern g now b.x b.y 150) gd).nextItemSpawnTime = gd.nextItemSpawnTime := by
  induction l generalizing gd with
  | nil => rfl
  | cons a t ih => rw [List.foldl_cons, ih, spawnCrossPattern_nextItemSpawnTime]

lemma splitPhase_nextItemSpawnTime (gd : GameData) (now : ℚ) :
    (splitPhase gd now).nextItemSpawnTime = gd.nextItemSpawnTime := by
  unfold splitPhase
  rw [foldl_spawnCross_nextItemSpawnTime]

lemma moveBullets_nextItemSpawnTime (o : Oracle) (gd : GameData) (dt : ℚ) :
    (moveBullets o gd dt).nextItemSpawnTime = gd.nextItemSpawnTime := rfl

lemma spawnSideBullet_nextItemSpawnTime (o : Oracle) (k : ℕ) (gd : GameData) (now s : ℚ) (isSp : Bool) :
    ((spawnSideBullet o k gd now s isSp).1).nextItemSpawnTime = gd.nextItemSpawnTime := rfl

lemma spawnAimedBullet_nextItemSpawnTime (o : Oracle) (k : ℕ) (gd : GameData) (now s : ℚ) :
    ((spawnAimedBullet o k gd now s).1).nextItemSpawnTime = gd.nextItemSpawnTime := rfl

lemma spawnHomingBullet_nextItemSpawnTime (o : Oracle) (k : ℕ) (gd : GameData) (now s : ℚ) :
    ((spawnHomingBullet o k gd now s).1).nextItemSpawnTime = gd.nextItemSpawnTime := rfl

lemma spawnImpossibleWallPattern_nextItemSpawnTime (o : Oracle) (k : ℕ) (gd : GameData) (now s t : ℚ) :
    ((spawnImpossibleWallPattern o k gd now s t).1).nextItemSpawnTime = gd.nextItemSpawnTime := rfl

lemma genStage1_nextItemSpawnTime (o : Oracle) (k : ℕ) (gd : GameData) (now t lb : ℚ) :
    ((genStage1 o k gd now t lb).1).nextItemSpawnTime = gd.nextItemSpawnTime := by
  simp only [genStage1]
  split_ifs <;> rfl

lemma genStage2_nextItemSpawnTime (o : Oracle) (k : ℕ) (gd : GameData) (now lb lh : ℚ) :
    ((genStage2 o k gd now lb lh).1).nextItemSpawnTime = gd.nextItemSpawnTime := by
  simp only [genStage2]
  split_ifs <;> rfl

lemma genStage3_nextItemSpawnTime (o : Oracle) (k : ℕ) (gd : GameData) (now lb ls : ℚ) :
    ((genStage3 o k gd now lb ls).1).nextItemSpawnTime = gd.nextItemSpawnTime := by
  simp only [genStage3]
  split_ifs <;> rfl

lemma genStage4_nextItemSpawnTime (o : Oracle) (k : ℕ) (gd : GameData) (now lb lh ls : ℚ) :
    ((genStage4 o k gd now lb lh ls).1).nextItemSpawnTime = gd.nextItemSpawnTime := by
  simp only [genStage4]
  split_ifs <;> rfl

lemma genStage5_nextItemSpawnTime (o : Oracle) (k : ℕ) (gd : GameData) (now t lb lp : ℚ) :
    ((genStage5 o k gd now t lb lp).1).nextItemSpawnTime = gd.nextItemSpawnTime := by
  simp only [genStage5]
  split_ifs <;> rfl

lemma genStageInfinite_nextItemSpawnTime (o : Oracle) (k : ℕ) (gd : GameData) (now lb : ℚ) :
    ((genStageInfinite o k gd now lb).1).nextItemSpawnTime = gd.nextItemSpawnTime := by
  simp only [genStageInfinite]
  split_ifs <;> rfl

lemma generateBullets_nextItemSpawnTime (o : Oracle) (k : ℕ) (gd : GameData) (now t : ℚ) :
    ((generateBullets o k gd now t).1).nextItemSpawnTime = gd.nextItemSpawnTime := by
  simp only [generateBullets]
  split_ifs <;>
    simp only [genStage1_nextItemSpawnTime, genStage2_nextItemSpawnTime, genStage3_nextItemSpawnTime, genStage4_nextItemSpawnTime,
      genStage5_nextItemSpawnTime, genStageInfinite_nextItemSpawnTime]

lemma tickTimers_items (gd : GameData) (now : ℚ) :
    (tickTimers gd now).items = gd.items := rfl

lemma tickTimers_nextItemSpawnTime (gd : GameData) (now : ℚ) :
    (tickTimers gd now).nextItemSpawnTime = gd.nextItemSpawnTime := rfl

lemma gemMaintenance_items (o : Oracle) (k : ℕ) (gd : GameData) (now : ℚ) :
    ((gemMaintenance o k gd now).1).items = gd.items := by
  simp only [gemMaintenance]
  split_ifs <;> rfl

lemma expireFloatingTexts_items (gd : GameData) (now : ℚ) :
    (expireFloatingTexts gd now).items = gd.items := rfl

-- Gem-count lemmas for C4.

lemma gemMaintenance_length (o : Oracle) (k : ℕ) (gd : GameData) (now : ℚ)
    (h : gd.mathGems.length ≤ 1) :
    ((gemMaintenance o k gd now).1).mathGems.length = 1 := by
  simp only [gemMaintenance]
  split_ifs with h0
  · simp [h0]
  · have hle := List.length_filter_le (fun s => decide (s.expiresAt > now)) gd.mathGems
    simp only
    omega

lemma preCollisionState_gems_length (o : Oracle) (k : ℕ) (gd : GameData) (now dt : ℚ)
    (h : gd.mathGems.length ≤ 1) :
    ((preCollisionState o k gd now dt).1).mathGems.length = 1 := by
  unfold preCollisionState
  rw [expireFloatingTexts_mathGems]
  apply gemMaintenance_length
  rw [expireItems_mathGems, itemSpawnPhase_mathGems, generateBullets_mathGems,
    moveBullets_mathGems, splitPhase_mathGems, tickTimers_mathGems]
  exact h

lemma gemPickupPhase_singleton (gd : GameData) (now : ℚ) (g : MathGem)
    (hg : gd.mathGems = [g]) :
    (gemPickupPhase gd now).mathGems =
      if gd.player.lives > 0 ∧ playerTouchesGem gd.player g = true then [] else [g] := by
  simp only [gemPickupPhase, hg, List.foldl_cons, List.foldl_nil, gemPickupStep]
  split_ifs with hcnd <;> simp

lemma gemPickupStep_length (now : ℚ) (st : Player × List FloatingText × List MathGem)
    (gem : MathGem) :
    ((gemPickupStep now st gem).2.2).length ≤ st.2.2.length + 1 := by
  unfold gemPickupStep
  split_ifs <;> simp

lemma foldl_gemPickupStep_length (now : ℚ) (l : List MathGem)
    (st : Player × List FloatingText × List MathGem) :
    ((l.foldl (gemPickupStep now) st).2.2).length ≤ st.2.2.length + l.length := by
  induction l generalizing st with
  | nil => simp
  | cons a t ih =>
    rw [List.foldl_cons]
    have h1 := ih (gemPickupStep now st a)
    have h2 := gemPickupStep_length now st a
    simp only [List.length_cons]
    omega

lemma gemPickupPhase_length (gd : GameData) (now : ℚ) :
    (gemPickupPhase gd now).mathGems.length ≤ gd.mathGems.length := by
  unfold gemPickupPhase
  have := foldl_gemPickupStep_length now gd.mathGems
    (gd.player, gd.floatingTexts, [])
  simpa using this

/-- C4 corrected: once a session is Playing, at most one gem ever exists;
the gem-maintenance step at the start of gem processing (which runs before
pickups, within the same tick) restores the count to exactly one — so an
expired gem is replaced within its own tick and an empty arena is refilled
by the next tick — while a gem consumed by player overlap is removed after
that step, leaving zero gems at the end of the consuming tick. -/
theorem gem_invariant_amended (o : Oracle) (k k3 : ℕ) (gd gd3 gd4 : GameData)
    (now dt now3 now4 : ℚ) (g : MathGem)
    (h1 : gd.mathGems.length ≤ 1) (h3 : gd3.mathGems.length ≤ 1)
    (h4 : gd4.mathGems = [g]) :
    ((updateGameLogic o k gd now dt).1).mathGems.length ≤ 1 ∧
    ((gemMaintenance o k3 gd3 now3).1).mathGems.length = 1 ∧
    ((gemPickupPhase gd4 now4).mathGems =
      if gd4.player.lives > 0 ∧ playerTouchesGem gd4.player g = true then [] else [g]) := by
  refine ⟨?_, gemMaintenance_length o k3 gd3 now3 h3, gemPickupPhase_singleton gd4 now4 g h4⟩
  by_cases hc : stageClearCondition gd now
  · rw [stageClear_early_return o k gd now dt hc]
    exact h1
  · have hpre := preCollisionState_gems_length o k gd now dt h1
    have hupd : (updateGameLogic o k gd now dt).1 =
        gameOverPhase (invincibilityExpiryPhase (gemPickupPhase (itemPickupPhase
          (collisionPhase (preCollisionState o k gd now dt).1 now) now) now) now) now := by
      simp only [updateGameLogic, hc, if_false]
    rw [hupd, gameOverPhase_mathGems, invincibilityExpiryPhase_mathGems]
    refine le_trans (gemPickupPhase_length _ now) ?_
    rw [itemPickupPhase_mathGems, collisionPhase_mathGems, hpre]

/-- Witness for the amended C4: the baseline tick keeps the gem count at
one; gem maintenance on the baseline yields exactly one gem; and the
pickup pass on the overlapping-gem session consumes its gem. -/
theorem gem_invariant_amended_witness :
    gdBase.mathGems.length ≤ 1 ∧
    ((updateGameLogic oracle0 0 gdBase 1000 0).1).mathGems.length ≤ 1 ∧
    ((gemMaintenance oracle0 0 gdBase 1000).1).mathGems.length = 1 ∧
    ((gemPickupPhase gdC4 1000).mathGems =
      if gdC4.player.lives > 0 ∧ playerTouchesGem gdC4.player gemHere = true then [] else [gemHere]) := by
  have h := gem_invariant_amended oracle0 0 0 gdBase gdBase gdC4 1000 0 1000 1000 gemHere
    (by simp [gdBase]) (by simp [gdBase]) rfl
  exact ⟨by simp [gdBase], h.1, h.2.1, h.2.2⟩

-- Invincibility window (C5).

lemma collisionPhase_of_invincible (gd : GameData) (now : ℚ)
    (h : gd.player.isInvincible = true) : collisionPhase gd now = gd := by
  simp only [collisionPhase]
  rw [if_neg]
  rintro ⟨h1, h2⟩
  rw [h] at h2
  cases h2

lemma itemSpawnPhase_not_due (o : Oracle) (k : ℕ) (gd : GameData) (now : ℚ)
    (h : ¬ now > gd.nextItemSpawnTime) : itemSpawnPhase o k gd now = (gd, k) := by
  simp only [itemSpawnPhase]
  rw [if_neg h]

lemma expireItems_items_eq (gd : GameData) (now : ℚ) :
    (expireItems gd now).items = gd.items.filter fun i => decide (i.expiresAt > now) := rfl

lemma preCollisionState_items (o : Oracle) (k : ℕ) (gd : GameData) (now dt : ℚ)
    (hns : ¬ now > gd.nextItemSpawnTime) :
    ((preCollisionState o k gd now dt).1).items =
      gd.items.filter (fun i => decide (i.expiresAt > now)) := by
  unfold preCollisionState
  rw [expireFloatingTexts_items, gemMaintenance_items]
  have hC : ((generateBullets o k (moveBullets o (splitPhase (tickTimers gd now) now) dt) now
      (((now - gd.stageStartTime) -
        (gd.totalPausedTime - gd.pausedTimeAtStageStart)) / 1000)).1).nextItemSpawnTime =
      gd.nextItemSpawnTime := by
    rw [generateBullets_nextItemSpawnTime, moveBullets_nextItemSpawnTime,
      splitPhase_nextItemSpawnTime, tickTimers_nextItemSpawnTime]
  rw [itemSpawnPhase_not_due _ _ _ now (by rw [hC]; exact hns)]
  rw [expireItems_items_eq, generateBullets_items, moveBullets_items,
    splitPhase_items, tickTimers_items]

lemma itemPickupStep_player_of_no_shield (now : ℚ) (p : Player)
    (st : Player × List Bullet × List Item) (item : Item) (hst : st.1 = p)
    (hna : item.type = ItemType.shield → playerTouchesItem p item = false) :
    ((itemPickupStep now st item).1) = p := by
  unfold itemPickupStep
  split_ifs with hcnd
  · rcases hcnd with ⟨hl, ht⟩
    cases hta : item.type with
    | shield =>
      exfalso
      rw [hst, hna hta] at ht
      cases ht
    | dud => simp only [hta]; exact hst
    | clear => simp only [hta]; exact hst
  · exact hst

lemma foldl_itemPickupStep_player_of_no_shield (now : ℚ) (l : List Item) (p : Player)
    (st : Player × List Bullet × List Item) (hst : st.1 = p)
    (hns : ∀ i ∈ l, i.type = ItemType.shield → playerTouchesItem p i = false) :
    ((l.foldl (itemPickupStep now) st).1) = p := by
  induction l generalizing st with
  | nil => exact hst
  | cons a t ih =>
    rw [List.foldl_cons]
    refine ih _ ?_ ?_
    · exact itemPickupStep_player_of_no_shield now p st a hst (hns a (by simp))
    · intro i hi
      exact hns i (by simp [hi])

lemma itemPickupPhase_player_of_no_shield (gd : GameData) (now : ℚ)
    (hns : ∀ i ∈ gd.items, i.type = ItemType.shield → playerTouchesItem gd.player i = false) :
    (itemPickupPhase gd now).player = gd.player := by
  unfold itemPickupPhase
  exact foldl_itemPickupStep_player_of_no_shield now gd.items gd.player _ rfl hns

lemma gemPickupStep_isInvincible (now : ℚ) (st : Player × List FloatingText × List MathGem)
    (gem : MathGem) : ((gemPickupStep now st gem).1).isInvincible = st.1.isInvincible := by
  unfold gemPickupStep
  split_ifs <;> rfl

lemma gemPickupStep_invincibleUntil (now : ℚ) (st : Player × List FloatingText × List MathGem)
    (gem : MathGem) : ((gemPickupStep now st gem).1).invincibleUntil = st.1.invincibleUntil := by
  unfold gemPickupStep
  split_ifs <;> rfl

lemma foldl_gemPickupStep_isInvincible (now : ℚ) (l : List MathGem)
    (st : Player × List FloatingText × List MathGem) :
    ((l.foldl (gemPickupStep now) st).1).isInvincible = st.1.isInvincible := by
  induction l generalizing st with
  | nil => rfl
  | cons a t ih => rw [List.foldl_cons, ih, gemPickupStep_isInvincible]

lemma foldl_gemPickupStep_invincibleUntil (now : ℚ) (l : List MathGem)
    (st : Player × List FloatingText × List MathGem) :
    ((l.foldl (gemPickupStep now) st).1).invincibleUntil = st.1.invincibleUntil := by
  induction l generalizing st with
  | nil => rfl
  | cons a t ih => rw [List.foldl_cons, ih, gemPickupStep_invincibleUntil]

lemma gemPickupPhase_isInvincible (gd : GameData) (now : ℚ) :
    (gemPickupPhase gd now).player.isInvincible = gd.player.isInvincible := by
  unfold gemPickupPhase
  exact foldl_gemPickupStep_isInvincible now gd.mathGems _

lemma gemPickupPhase_invincibleUntil (gd : GameData) (now : ℚ) :
    (gemPickupPhase gd now).player.invincibleUntil = gd.player.invincibleUntil := by
  unfold gemPickupPhase
  exact foldl_gemPickupStep_invincibleUntil now gd.mathGems _

lemma invincibilityExpiryPhase_flag (gd : GameData) (now : ℚ)
    (h : gd.player.isInvincible = true) :
    (invincibilityExpiryPhase gd now).player.isInvincible =
      decide (now ≤ gd.player.invincibleUntil) := by
  simp only [invincibilityExpiryPhase]
  split_ifs with hcnd
  · have : ¬ now ≤ gd.player.invincibleUntil := not_le.mpr hcnd.2
    simp [this]
  · have hng : ¬ now > gd.player.invincibleUntil := fun hx => hcnd ⟨h, hx⟩
    have : now ≤ gd.player.invincibleUntil := not_lt.mp hng
    simp [h, this]

lemma gameOverPhase_player (gd : GameData) (now : ℚ) :
    (gameOverPhase gd now).player = gd.player := by
  simp only [gameOverPhase]
  split_ifs <;> rfl

/-- Counterexample to C5 as stated: with invincibility granted at T = 3000
for D = 2000 ms (stored expiry 5000), the tick at now = T + D = 5000 leaves
the flag still true — the code clears it only when now strictly exceeds
the stored expiry, so the flag is not false for every tick with
now ≥ T + D. -/
theorem invincibility_boundary_counterexample :
    gdC5.player.invincibleUntil = 5000 ∧ gdC5.player.isInvincible = true ∧
    gdC5.status = Status.playing ∧
    ((updateGameLogic oracle0 0 gdC5 5000 0).1).player.isInvincible = true := by
  refine ⟨rfl, rfl, rfl, ?_⟩
  norm_num [updateGameLogic, stageClearCondition, preCollisionState, tickTimers,
    splitPhase, moveBullets, generateBullets, genStage2, spawnSideBullet,
    spawnHomingBullet, getRandom, itemSpawnPhase, expireItems, gemMaintenance,
    expireFloatingTexts, collisionPhase, bulletHitsPlayer, itemPickupPhase,
    itemPickupStep, gemPickupPhase, gemPickupStep, playerTouchesGem,
    playerTouchesItem, gemScoreChange, invincibilityExpiryPhase, gameOverPhase,
    gdC5, playerInv, gdBase, playerBase, gemFar, oracle0, BULLET_SIZE, PLAYER_SIZE,
    ITEM_SIZE, PLAYER_HITBOX_PADDING]

/-- C5 corrected: the invincibility flag granted with stored expiry E stays
true on every tick with now ≤ E and is cleared exactly on ticks with
now > E (so it is true on [T, T+D] and false only strictly after T+D);
the shield pickup overwrites the stored expiry with now + 5000 and the
damage-grace collision overwrites it with now + 2000, regardless of any
earlier expiry. -/
theorem invincibility_window_amended (o : Oracle) (k : ℕ) (gd gdS gdC : GameData)
    (now dt nowS nowC : ℚ) (itm : Item)
    (hInv : gd.player.isInvincible = true)
    (hNC : ¬ stageClearCondition gd now)
    (hNoSpawn : ¬ now > gd.nextItemSpawnTime)
    (hNoShield : ∀ i ∈ gd.items, i.type = ItemType.shield →
      playerTouchesItem gd.player i = false)
    (hS1 : gdS.player.lives > 0) (hS2 : gdS.items = [itm])
    (hS3 : itm.type = ItemType.shield) (hS4 : playerTouchesItem gdS.player itm = true)
    (hC1 : gdC.player.lives > 0) (hC2 : gdC.player.isInvincible = false)
    (hC3 : gdC.bullets.any (bulletHitsPlayer gdC.player) = true) :
    ((updateGameLogic o k gd now dt).1).player.isInvincible =
      decide (now ≤ gd.player.invincibleUntil) ∧
    ((itemPickupPhase gdS nowS).player.invincibleUntil = nowS + 5000 ∧
      (itemPickupPhase gdS nowS).player.isInvincible = true) ∧
    ((collisionPhase gdC nowC).player.invincibleUntil = nowC + 2000 ∧
      (collisionPhase gdC nowC).player.isInvincible = true) := by
  refine ⟨?_, ?_, ?_⟩
  · have hupd : (updateGameLogic o k gd now dt).1 =
        gameOverPhase (invincibilityExpiryPhase (gemPickupPhase (itemPickupPhase
          (collisionPhase (preCollisionState o k gd now dt).1 now) now) now) now) now := by
      simp only [updateGameLogic, hNC, if_false]
    have hAp : ((preCollisionState o k gd now dt).1).player = gd.player :=
      preCollisionState_player o k gd now dt
    have hcoll : collisionPhase (preCollisionState o k gd now dt).1 now =
        (preCollisionState o k gd now dt).1 := by
      apply collisionPhase_of_invincible
      rw [hAp]
      exact hInv
    have hitems := preCollisionState_items o k gd now dt hNoSpawn
    have hitem : (itemPickupPhase (preCollisionState o k gd now dt).1 now).player =
        gd.player := by
      rw [itemPickupPhase_player_of_no_shield _ now ?_]
      · exact hAp
      · intro i hi htype
        rw [hAp]
        refine hNoShield i ?_ htype
        rw [hitems] at hi
        exact (List.mem_filter.mp hi).1
    have hflag : (gemPickupPhase (itemPickupPhase (collisionPhase
        (preCollisionState o k gd now dt).1 now) now) now).player.isInvincible = true := by
      rw [gemPickupPhase_isInvincible, hcoll, hitem]
      exact hInv
    have huntil : (gemPickupPhase (itemPickupPhase (collisionPhase
        (preCollisionState o k gd now dt).1 now) now) now).player.invincibleUntil =
        gd.player.invincibleUntil := by
      rw [gemPickupPhase_invincibleUntil, hcoll, hitem]
    rw [hupd, gameOverPhase_player, invincibilityExpiryPhase_flag _ now hflag, huntil]
  · have hps : (itemPickupPhase gdS nowS).player =
        { gdS.player with isInvincible := true, invincibleUntil := nowS + 5000 } := by
      simp only [itemPickupPhase, hS2, List.foldl_cons, List.foldl_nil, itemPickupStep,
        hS3]
      rw [if_pos ⟨hS1, hS4⟩]
    rw [hps]
    exact ⟨rfl, rfl⟩
  · have hps : (collisionPhase gdC nowC).player =
        { gdC.player with
          lives := 0, isInvincible := true, invincibleUntil := nowC + 2000 } := by
      simp only [collisionPhase]
      rw [if_pos ⟨hC1, hC2⟩, if_pos hC3]
    rw [hps]
    exact ⟨rfl, rfl⟩

/-- Witness for the amended C5: at t = 4000 (within the window ending at
5000) the invincible baseline player keeps the flag; the shield pickup on
`gdShield` sets the expiry to t + 5000; the collision in `gdDeath` sets it
to t + 2000. -/
theorem invincibility_window_amended_witness :
    ((updateGameLogic oracle0 0 gdC5 4000 0).1).player.isInvincible =
      decide ((4000 : ℚ) ≤ gdC5.player.invincibleUntil) ∧
    ((itemPickupPhase gdShield 1000).player.invincibleUntil = 1000 + 5000 ∧
      (itemPickupPhase gdShield 1000).player.isInvincible = true) ∧
    ((collisionPhase gdDeath 1000).player.invincibleUntil = 1000 + 2000 ∧
      (collisionPhase gdDeath 1000).player.isInvincible = true) := by
  refine invincibility_window_amended oracle0 0 gdC5 gdShield gdDeath 4000 0 1000 1000
    shieldItem rfl ?_ ?_ ?_ ?_ rfl rfl ?_ ?_ rfl ?_
  · norm_num [stageClearCondition, gdC5, gdBase]
  · norm_num [gdC5, gdBase]
  · intro i hi
    simp [gdC5, gdBase] at hi
  · norm_num [gdShield, gdBase, playerBase]
  · norm_num [playerTouchesItem, gdShield, gdBase, playerBase, shieldItem, ITEM_SIZE,
      PLAYER_SIZE]
  · norm_num [gdDeath, gdBase, playerBase]
  · norm_num [gdDeath, gdBase, playerBase, bDeath, bulletHitsPlayer, BULLET_SIZE,
      PLAYER_SIZE, PLAYER_HITBOX_PADDING]

-- Splitter conversion (C6).

lemma foldl_spawnCross_bullets (l : List Bullet) (gd : GameData) (now : ℚ) :
    (l.foldl (fun g b => spawnCrossPattern g now b.x b.y 150) gd).bullets =
      gd.bullets ++ l.flatMap (fun b => crossBullets now b.x b.y 150) := by
  induction l generalizing gd with
  | nil => simp
  | cons a t ih =>
    rw [List.foldl_cons, ih, List.flatMap_cons]
    simp [spawnCrossPattern, List.append_assoc]

lemma splitPhase_bullets_eq (gd : GameData) (now : ℚ) :
    (splitPhase gd now).bullets =
      gd.bullets.filter (fun b => !(b.isSplitter && decide (now ≥ b.splitAt)))
        ++ (gd.bullets.filter fun b => b.isSplitter && decide (now ≥ b.splitAt)).flatMap
            (fun b => crossBullets now b.x b.y 150) := by
  unfold splitPhase
  rw [foldl_spawnCross_bullets]

/-- C6: in any session, the splitter pass removes every splitter whose
scheduled time has arrived (now ≥ splitAt) — each such splitter is gone
from the resulting list and the four-way cross pattern launched from its
last position is present instead — keeps every splitter that is not yet
due and every plain bullet, and the replacement pattern is exactly 4
bullets, none splitter or homing, positioned at the splitter's position,
with velocities at angles 0°, 90°, 180°, 270° and fixed speed 150. -/
theorem splitter_cross_replacement (gd : GameData) (now : ℚ) :
    ((splitPhase gd now).bullets =
      gd.bullets.filter (fun b => !(b.isSplitter && decide (now ≥ b.splitAt)))
        ++ (gd.bullets.filter fun b => b.isSplitter && decide (now ≥ b.splitAt)).flatMap
            (fun b => crossBullets now b.x b.y 150)) ∧
    (∀ s ∈ gd.bullets, s.isSplitter = true → now ≥ s.splitAt →
        s ∉ (splitPhase gd now).bullets ∧
        ∀ b ∈ crossBullets now s.x s.y 150, b ∈ (splitPhase gd now).bullets) ∧
    (∀ s ∈ gd.bullets, ¬(s.isSplitter = true ∧ now ≥ s.splitAt) →
        s ∈ (splitPhase gd now).bullets) ∧
    (∀ x y : ℚ, (crossBullets now x y 150).map
        (fun b => (b.x, b.y, b.dx, b.dy, b.isSplitter, b.isHoming)) =
      [(x, y, 150, 0, false, false), (x, y, 0, 150, false, false),
       (x, y, -150, 0, false, false), (x, y, 0, -150, false, false)]) := by
  refine ⟨splitPhase_bullets_eq gd now, ?_, ?_, ?_⟩
  · intro s hmem hs hdue
    constructor
    · rw [splitPhase_bullets_eq]
      intro habs
      rcases List.mem_append.mp habs with hin | hin
      · have hp := (List.mem_filter.mp hin).2
        rw [hs] at hp
        simp [hdue] at hp
      · rcases List.mem_flatMap.mp hin with ⟨c, _, hsc⟩
        rcases List.mem_map.mp hsc with ⟨i, _, hEq⟩
        have hflag := congrArg Bullet.isSplitter hEq
        rw [hs] at hflag
        simp at hflag
    · intro b hb
      rw [splitPhase_bullets_eq]
      refine List.mem_append.mpr (Or.inr (List.mem_flatMap.mpr ⟨s, ?_, hb⟩))
      exact List.mem_filter.mpr ⟨hmem, by simp [hs, hdue]⟩
  · intro s hmem hnot
    rw [splitPhase_bullets_eq]
    refine List.mem_append.mpr (Or.inl (List.mem_filter.mpr ⟨hmem, ?_⟩))
    by_cases hs : s.isSplitter = true
    · have hnd : ¬ now ≥ s.splitAt := fun hd => hnot ⟨hs, hd⟩
      simp [hs, hnd]
    · simp [Bool.of_not_eq_true hs]
  · intro x y
    simp [crossBullets, crossDir, List.range_succ]

/-- Witness for C6: in the mixed session `gdSplMix` (a plain bullet, the
due splitter `sSpl` scheduled at t = 900, and the not-yet-due splitter
`sSpl2` scheduled at t = 2000), at tick time t = 1000 the pass removes
exactly `sSpl`, keeps the plain bullet and `sSpl2`, and appends the cross
pattern from `sSpl`'s position. -/
theorem splitter_cross_replacement_witness :
    sSpl ∈ gdSplMix.bullets ∧ sSpl.isSplitter = true ∧ (1000 : ℚ) ≥ sSpl.splitAt ∧
    sSpl ∉ (splitPhase gdSplMix 1000).bullets ∧
    (∀ b ∈ crossBullets 1000 sSpl.x sSpl.y 150, b ∈ (splitPhase gdSplMix 1000).bullets) ∧
    bPlain ∈ (splitPhase gdSplMix 1000).bullets ∧
    sSpl2 ∈ (splitPhase gdSplMix 1000).bullets ∧
    (splitPhase gdSplMix 1000).bullets =
      [bPlain, sSpl2] ++ crossBullets 1000 sSpl.x sSpl.y 150 ∧
    (crossBullets 1000 sSpl.x sSpl.y 150).map
        (fun b => (b.x, b.y, b.dx, b.dy, b.isSplitter, b.isHoming)) =
      [(sSpl.x, sSpl.y, 150, 0, false, false), (sSpl.x, sSpl.y, 0, 150, false, false),
       (sSpl.x, sSpl.y, -150, 0, false, false), (sSpl.x, sSpl.y, 0, -150, false, false)] := by
  have h := splitter_cross_replacement gdSplMix 1000
  have hmem : sSpl ∈ gdSplMix.bullets := by simp [gdSplMix, gdBase]
  have hge : (1000 : ℚ) ≥ sSpl.splitAt := by norm_num [sSpl]
  have hdue := h.2.1 sSpl hmem rfl hge
  refine ⟨hmem, rfl, hge, hdue.1, hdue.2, ?_, ?_, ?_, h.2.2.2 sSpl.x sSpl.y⟩
  · exact h.2.2.1 bPlain (by simp [gdSplMix, gdBase]) (fun hc => by simp [bPlain] at hc)
  · exact h.2.2.1 sSpl2 (by simp [gdSplMix, gdBase])
      (fun hc => by norm_num [sSpl2] at hc)
  · rw [h.1]
    simp only [gdSplMix, gdBase, List.filter_cons, List.filter_nil]
    norm_num [bPlain, sSpl, sSpl2]

-- Player movement (C8).

/-- Counterexample to C8 as stated: with the player at (100, 100) (center
(117.5, 117.5)) and the target at (120.5, 121.5), distance exactly 5 (not
above the stop threshold), the code clears the target but the player does
NOT snap to it — it stays at (100, 100). -/
theorem movePlayer_no_snap_counterexample :
    (movePlayer oracleC8 2 400 580 playerBase (some (241/2, 243/2)) (16/1000)).2 = none ∧
    (movePlayer oracleC8 2 400 580 playerBase (some (241/2, 243/2)) (16/1000)).1.x = 100 ∧
    (movePlayer oracleC8 2 400 580 playerBase (some (241/2, 243/2)) (16/1000)).1.y = 100 ∧
    ¬ ((movePlayer oracleC8 2 400 580 playerBase (some (241/2, 243/2)) (16/1000)).1.x
        + PLAYER_SIZE / 2 = 241/2) := by
  norm_num [movePlayer, movePlayerRaw, clampToArena, stageSpeedMultiplier, oracleC8,
    oracle0, playerBase, PLAYER_SIZE, PLAYER_BASE_SPEED]

lemma norm_displacement (dx dy d s dt : ℚ) (hd0 : d ≠ 0)
    (hdd : d * d = dx * dx + dy * dy) :
    (dx / d * s * dt) * (dx / d * s * dt) + (dy / d * s * dt) * (dy / d * s * dt) =
      (s * dt) * (s * dt) := by
  have key : (dx / d * s * dt) * (dx / d * s * dt) + (dy / d * s * dt) * (dy / d * s * dt) =
      (dx * dx + dy * dy) * ((s * dt) * (s * dt)) / (d * d) := by
    field_simp
    ring
  rw [key, ← hdd, mul_comm, mul_div_assoc, div_self (mul_ne_zero hd0 hd0), mul_one]

lemma collinear_displacement (dx dy d s dt : ℚ) :
    (dx / d * s * dt) * dy = (dy / d * s * dt) * dx := by
  ring

/-- C8 corrected: for a living player with a target set, if the computed
distance is not above the stop threshold 5 the target is cleared and the
player does not move (it is only clamped in place; there is no snap to the
target); otherwise the target is kept and the player moves along the
normalized direction by speed × dt — the displacement has squared length
(speed·dt)² and is collinear with the vector to the target — where
speed = PLAYER_BASE_SPEED × the per-stage multiplier (0.8 on stage 1, 0.9
on stage 3, 1 otherwise), and the result is clamped to the arena. -/
theorem movePlayer_step_amended (o : Oracle) (stage st : ℤ) (w h : ℚ) (p : Player)
    (t : ℚ × ℚ) (dt : ℚ) (hl : 0 < p.lives) (hst1 : st ≠ 1) (hst3 : st ≠ 3) :
    (let dx := t.1 - (p.x + PLAYER_SIZE / 2)
     let dy := t.2 - (p.y + PLAYER_SIZE / 2)
     let d := o.sqrt (dx * dx + dy * dy)
     let speed := PLAYER_BASE_SPEED * stageSpeedMultiplier stage
     let p2 := (movePlayerRaw o stage p t dt).1
     (¬ d > 5 → movePlayer o stage w h p (some t) dt = (clampToArena w h p, none)) ∧
     (d > 5 → movePlayer o stage w h p (some t) dt = (clampToArena w h p2, some t)) ∧
     (d > 5 → d * d = dx * dx + dy * dy →
       (p2.x - p.x) * (p2.x - p.x) + (p2.y - p.y) * (p2.y - p.y) =
         (speed * dt) * (speed * dt) ∧
       (p2.x - p.x) * dy = (p2.y - p.y) * dx)) ∧
    stageSpeedMultiplier 1 = 4 / 5 ∧ stageSpeedMultiplier 3 = 9 / 10 ∧
    stageSpeedMultiplier st = 1 := by
  refine ⟨⟨?_, ?_, ?_⟩, by norm_num [stageSpeedMultiplier], by norm_num [stageSpeedMultiplier],
    by simp [stageSpeedMultiplier, hst1, hst3]⟩
  · intro h5
    simp [movePlayer, movePlayerRaw, hl, h5]
  · intro hgt
    have hraw2 : (movePlayerRaw o stage p t dt).2 = true := by
      simp [movePlayerRaw, hgt]
    simp [movePlayer, hl, hraw2]
  · intro hgt hdd
    have hd0 : o.sqrt ((t.1 - (p.x + PLAYER_SIZE / 2)) * (t.1 - (p.x + PLAYER_SIZE / 2)) +
        (t.2 - (p.y + PLAYER_SIZE / 2)) * (t.2 - (p.y + PLAYER_SIZE / 2))) ≠ 0 :=
      ne_of_gt (by linarith)
    have hp2 : (movePlayerRaw o stage p t dt).1 =
        { p with
          x := p.x + (t.1 - (p.x + PLAYER_SIZE / 2)) /
            o.sqrt ((t.1 - (p.x + PLAYER_SIZE / 2)) * (t.1 - (p.x + PLAYER_SIZE / 2)) +
              (t.2 - (p.y + PLAYER_SIZE / 2)) * (t.2 - (p.y + PLAYER_SIZE / 2))) *
            (PLAYER_BASE_SPEED * stageSpeedMultiplier stage) * dt,
          y := p.y + (t.2 - (p.y + PLAYER_SIZE / 2)) /
            o.sqrt ((t.1 - (p.x + PLAYER_SIZE / 2)) * (t.1 - (p.x + PLAYER_SIZE / 2)) +
              (t.2 - (p.y + PLAYER_SIZE / 2)) * (t.2 - (p.y + PLAYER_SIZE / 2))) *
            (PLAYER_BASE_SPEED * stageSpeedMultiplier stage) * dt } := by
      simp [movePlayerRaw, hgt]
    rw [hp2]
    simp only
    have e1 : ∀ a b : ℚ, a + b - a = b := fun a b => by ring
    rw [e1, e1]
    exact ⟨norm_displacement _ _ _ _ dt hd0 hdd, collinear_displacement _ _ _ _ dt⟩

/-- Witness for the amended C8: player at (100, 100), target 10 away at
(123.5, 125.5) (dx = 6, dy = 8), stage 2, dt = 1: the player moves to
(250, 300) and the target is kept. -/
theorem movePlayer_step_amended_witness :
    (0 : ℤ) < playerBase.lives ∧
    ((let dx := (247/2 : ℚ) - (playerBase.x + PLAYER_SIZE / 2)
      let dy := (251/2 : ℚ) - (playerBase.y + PLAYER_SIZE / 2)
      let d := oracleSqrt10.sqrt (dx * dx + dy * dy)
      let speed := PLAYER_BASE_SPEED * stageSpeedMultiplier 2
      let p2 := (movePlayerRaw oracleSqrt10 2 playerBase (247/2, 251/2) 1).1
      (¬ d > 5 → movePlayer oracleSqrt10 2 400 580 playerBase (some (247/2, 251/2)) 1 =
        (clampToArena 400 580 playerBase, none)) ∧
      (d > 5 → movePlayer oracleSqrt10 2 400 580 playerBase (some (247/2, 251/2)) 1 =
        (clampToArena 400 580 p2, some (247/2, 251/2))) ∧
      (d > 5 → d * d = dx * dx + dy * dy →
        (p2.x - playerBase.x) * (p2.x - playerBase.x) +
          (p2.y - playerBase.y) * (p2.y - playerBase.y) = (speed * 1) * (speed * 1) ∧
        (p2.x - playerBase.x) * dy = (p2.y - playerBase.y) * dx)) ∧
     stageSpeedMultiplier 1 = 4 / 5 ∧ stageSpeedMultiplier 3 = 9 / 10 ∧
     stageSpeedMultiplier 2 = 1) ∧
    (movePlayer oracleSqrt10 2 400 580 playerBase (some (247/2, 251/2)) 1).1.x = 250 ∧
    (movePlayer oracleSqrt10 2 400 580 playerBase (some (247/2, 251/2)) 1).1.y = 300 ∧
    (movePlayer oracleSqrt10 2 400 580 playerBase (some (247/2, 251/2)) 1).2 =
      some (247/2, 251/2) := by
  refine ⟨by norm_num [playerBase],
    movePlayer_step_amended oracleSqrt10 2 2 400 580 playerBase (247/2, 251/2) 1
      (by norm_num [playerBase]) (by norm_num) (by norm_num), ?_, ?_, ?_⟩ <;>
    norm_num [movePlayer, movePlayerRaw, clampToArena, stageSpeedMultiplier,
      oracleSqrt10, oracle0, playerBase, PLAYER_SIZE, PLAYER_BASE_SPEED]

-- Gem scoring (C9).

/-- C9: on a gem pickup by a living player the score becomes
max 0 (score + scoreChange) — in particular it is clamped to ≥ 0 — where
scoreChange applies the gem's operator to its operands and a zero second
operand under division yields 0 instead of an error; a division gem is
never created with a zero second operand (coerced to 1 at creation); and
the player score stays ≥ 0 across any full tick. -/
theorem gem_scoring_guarded (o oc : Oracle) (kc kT : ℕ) (gdP gdT : GameData)
    (nowP nowc wc hc nowT dtT : ℚ) (g : MathGem)
    (hP1 : gdP.player.lives > 0) (hP2 : playerTouchesGem gdP.player g = true)
    (hP3 : gdP.mathGems = [g]) (hT : 0 ≤ gdT.player.score) :
    (gemPickupPhase gdP nowP).player.score = max 0 (gdP.player.score + gemScoreChange g) ∧
    (g.operator = Op.div → g.value2 = 0 → gemScoreChange g = 0) ∧
    (((createMathGem oc kc nowc wc hc).1).operator = Op.div →
      ((createMathGem oc kc nowc wc hc).1).value2 ≠ 0) ∧
    0 ≤ ((updateGameLogic o kT gdT nowT dtT).1).player.score := by
  refine ⟨?_, ?_, ?_, ?_⟩
  · simp [gemPickupPhase, hP3, gemPickupStep, hP1, hP2]
  · intro h1 h2
    simp [gemScoreChange, h1, h2]
  · simp only [createMathGem]
    intro hop
    split_ifs with hif
    · exact one_ne_zero
    · intro h0
      exact hif ⟨hop, h0⟩
  · by_cases hcl : stageClearCondition gdT nowT
    · rw [stageClear_early_return o kT gdT nowT dtT hcl]
      exact hT
    · have hupd : (updateGameLogic o kT gdT nowT dtT).1 =
          gameOverPhase (invincibilityExpiryPhase (gemPickupPhase (itemPickupPhase
            (collisionPhase (preCollisionState o kT gdT nowT dtT).1 nowT) nowT) nowT)
            nowT) nowT := by
        simp only [updateGameLogic, hcl, if_false]
      rw [hupd, gameOverPhase_score, invincibilityExpiryPhase_score]
      apply gemPickupPhase_score_nonneg
      rw [itemPickupPhase_score, collisionPhase_score, preCollisionState_player]
      exact hT

/-- Witness for C9: picking up the 3+4 gem of `gdC4` sets the score to
max 0 (0 + 7) = 7; the divisor coercion and the whole-tick clamp hold on
the baseline session. -/
theorem gem_scoring_guarded_witness :
    gdC4.player.lives > 0 ∧ playerTouchesGem gdC4.player gemHere = true ∧
    ((gemPickupPhase gdC4 1000).player.score =
      max 0 (gdC4.player.score + gemScoreChange gemHere) ∧
    (gemHere.operator = Op.div → gemHere.value2 = 0 → gemScoreChange gemHere = 0) ∧
    (((createMathGem oracle0 0 1000 400 580).1).operator = Op.div →
      ((createMathGem oracle0 0 1000 400 580).1).value2 ≠ 0) ∧
    0 ≤ ((updateGameLogic oracle0 0 gdBase 1000 0).1).player.score) ∧
    (gemPickupPhase gdC4 1000).player.score = 7 := by
  have h1 : gdC4.player.lives > 0 := by norm_num [gdC4, gdBase, playerBase]
  have h2 : playerTouchesGem gdC4.player gemHere = true := by
    norm_num [playerTouchesGem, gdC4, gdBase, playerBase, gemHere, ITEM_SIZE, PLAYER_SIZE]
  have hmain := gem_scoring_guarded oracle0 oracle0 0 0 gdC4 gdBase 1000 1000 400 580
    1000 0 gemHere h1 h2 rfl (by norm_num [gdBase, playerBase])
  refine ⟨h1, h2, hmain, ?_⟩
  rw [hmain.1]
  norm_num [gdC4, gdBase, playerBase, gemHere, gemScoreChange]

-- Bullet bounds (C7).

lemma getRandom_bounds (o : Oracle) (hr : RandInRange o) (k : ℕ) (lo hi : ℚ)
    (hlh : lo ≤ hi) : lo ≤ (getRandom o k lo hi).1 ∧ (getRandom o k lo hi).1 ≤ hi := by
  unfold getRandom
  dsimp only
  constructor
  · nlinarith [(hr k).1, (hr k).2]
  · nlinarith [(hr k).1, (hr k).2]

lemma randMul_lb (o : Oracle) (hr : RandInRange o) (n : ℕ) (w : ℚ) (hw : 0 < w) :
    -BULLET_SIZE ≤ o.rand n * w := by
  have h1 := (hr n).1
  norm_num [BULLET_SIZE]
  nlinarith

lemma randMul_ub (o : Oracle) (hr : RandInRange o) (n : ℕ) (w : ℚ) (hw : 0 < w) :
    o.rand n * w ≤ w + BULLET_SIZE := by
  have h1 := (hr n).1
  have h2 := (hr n).2
  norm_num [BULLET_SIZE]
  nlinarith

lemma getRandom_lb2 (o : Oracle) (hr : RandInRange o) (k : ℕ) (w : ℚ) (hw : 0 < w) :
    -BULLET_SIZE ≤ (getRandom o k 0 w).1 := by
  have h := (getRandom_bounds o hr k 0 w (le_of_lt hw)).1
  have hB : (0 : ℚ) < BULLET_SIZE := by norm_num [BULLET_SIZE]
  linarith

lemma getRandom_ub2 (o : Oracle) (hr : RandInRange o) (k : ℕ) (w : ℚ) (hw : 0 < w) :
    (getRandom o k 0 w).1 ≤ w + BULLET_SIZE := by
  have h := (getRandom_bounds o hr k 0 w (le_of_lt hw)).2
  have hB : (0 : ℚ) < BULLET_SIZE := by norm_num [BULLET_SIZE]
  linarith

lemma mem_moveBullets_within (o : Oracle) (gd : GameData) (dt : ℚ) :
    ∀ b ∈ (moveBullets o gd dt).bullets, withinExtended gd.width gd.height b := by
  intro b hb
  unfold moveBullets at hb
  simp only [List.mem_filter, Bool.and_eq_true, decide_eq_true_eq] at hb
  obtain ⟨-, hcond⟩ := hb
  have h1 : b.x > -BULLET_SIZE := by tauto
  have h2 : b.x < gd.width := by tauto
  have h3 : b.y > -BULLET_SIZE := by tauto
  have h4 : b.y < gd.height := by tauto
  have hB : (0 : ℚ) < BULLET_SIZE := by norm_num [BULLET_SIZE]
  exact ⟨le_of_lt h1, by linarith, le_of_lt h3, by linarith⟩

set_option maxHeartbeats 1000000 in
lemma mem_spawnSideBullet_within (o : Oracle) (k : ℕ) (gd : GameData) (now s : ℚ)
    (isSp : Bool) (hr : RandInRange o) (hw : 0 < gd.width) (hh : 0 < gd.height) :
    ∀ b ∈ ((spawnSideBullet o k gd now s isSp).1).bullets,
      b ∈ gd.bullets ∨ withinExtended gd.width gd.height b := by
  intro b hb
  unfold spawnSideBullet at hb
  dsimp only at hb
  rw [List.mem_append, List.mem_singleton] at hb
  rcases hb with hb | hb
  · exact Or.inl hb
  · right
    subst hb
    unfold withinExtended
    dsimp only
    split_ifs <;> (try dsimp only) <;>
      refine ⟨?_, ?_, ?_, ?_⟩ <;>
      first
        | (apply getRandom_lb2 o hr; assumption)
        | (apply getRandom_ub2 o hr; assumption)
        | (norm_num [BULLET_SIZE]; try linarith)

set_option maxHeartbeats 1000000 in
lemma mem_spawnAimedBullet_within (o : Oracle) (k : ℕ) (gd : GameData) (now s : ℚ)
    (hr : RandInRange o) (hw : 0 < gd.width) (hh : 0 < gd.height) :
    ∀ b ∈ ((spawnAimedBullet o k gd now s).1).bullets,
      b ∈ gd.bullets ∨ withinExtended gd.width gd.height b := by
  intro b hb
  unfold spawnAimedBullet at hb
  dsimp only at hb
  rw [List.mem_append, List.mem_singleton] at hb
  rcases hb with hb | hb
  · exact Or.inl hb
  · right
    subst hb
    unfold withinExtended
    dsimp only
    split_ifs <;> (try dsimp only) <;>
      refine ⟨?_, ?_, ?_, ?_⟩ <;>
      first
        | (apply getRandom_lb2 o hr; assumption)
        | (apply getRandom_ub2 o hr; assumption)
        | (norm_num [BULLET_SIZE]; try linarith)

set_option maxHeartbeats 1000000 in
lemma mem_spawnHomingBullet_within (o : Oracle) (k : ℕ) (gd : GameData) (now s : ℚ)
    (hr : RandInRange o) (hw : 0 < gd.width) (hh : 0 < gd.height) :
    ∀ b ∈ ((spawnHomingBullet o k gd now s).1).bullets,
      b ∈ gd.bullets ∨ withinExtended gd.width gd.height b := by
  intro b hb
  unfold spawnHomingBullet at hb
  dsimp only at hb
  rw [List.mem_append, List.mem_singleton] at hb
  rcases hb with hb | hb
  · exact Or.inl hb
  · right
    subst hb
    unfold withinExtended
    dsimp only
    split_ifs <;> (try dsimp only) <;>
      refine ⟨?_, ?_, ?_, ?_⟩ <;>
      first
        | (apply getRandom_lb2 o hr; assumption)
        | (apply getRandom_ub2 o hr; assumption)
        | (norm_num [BULLET_SIZE]; try linarith)

lemma mem_spawnImpossibleWallPattern_within (o : Oracle) (k : ℕ) (gd : GameData)
    (now s t : ℚ) (hr : RandInRange o) (hw : 0 < gd.width) (hh : 0 < gd.height)
    (hwh : gd.width ≤ gd.height + BULLET_SIZE) :
    ∀ b ∈ ((spawnImpossibleWallPattern o k gd now s t).1).bullets,
      b ∈ gd.bullets ∨ withinExtended gd.width gd.height b := by
  intro b hb
  unfold spawnImpossibleWallPattern at hb
  dsimp only at hb
  rw [List.mem_append, List.mem_filterMap] at hb
  rcases hb with hb | hb
  · exact Or.inl hb
  · right
    obtain ⟨j, hj, hfb⟩ := hb
    rw [List.mem_range] at hj
    have hB : (0 : ℚ) < BULLET_SIZE := by norm_num [BULLET_SIZE]
    have hstep : (0 : ℚ) < BULLET_SIZE * (3 / 2) := by positivity
    have hi0 : (0 : ℚ) ≤ (j : ℚ) * (BULLET_SIZE * (3 / 2)) :=
      mul_nonneg (Nat.cast_nonneg j) (le_of_lt hstep)
    have hj1 : (j : ℤ) < Int.ceil (gd.width / (BULLET_SIZE * (3 / 2))) := by
      rwa [Int.lt_toNat] at hj
    have hj2 : (j : ℚ) < gd.width / (BULLET_SIZE * (3 / 2)) := by
      exact_mod_cast Int.lt_ceil.mp hj1
    have hiw : (j : ℚ) * (BULLET_SIZE * (3 / 2)) < gd.width :=
      (lt_div_iff₀ hstep).mp hj2
    unfold wallBullet at hfb
    dsimp only at hfb
    split_ifs at hfb <;>
      first
        | exact Option.noConfusion hfb
        | (have hb2 := Option.some.inj hfb; subst hb2; unfold withinExtended;
           dsimp only; refine ⟨?_, ?_, ?_, ?_⟩ <;> linarith)

lemma chain_step {gd gd2 : GameData} {l : List Bullet}
    (hstep : ∀ b ∈ l, b ∈ gd2.bullets ∨ withinExtended gd2.width gd2.height b)
    (hmem2 : ∀ b ∈ gd2.bullets, b ∈ gd.bullets ∨ withinExtended gd.width gd.height b)
    (hW : gd2.width = gd.width) (hH : gd2.height = gd.height) :
    ∀ b ∈ l, b ∈ gd.bullets ∨ withinExtended gd.width gd.height b := by
  intro b hb
  rcases hstep b hb with h | h
  · exact hmem2 b h
  · rw [hW, hH] at h
    exact Or.inr h

lemma mem_genStage1_within (o : Oracle) (k : ℕ) (gd : GameData) (now t lb : ℚ)
    (hr : RandInRange o) (hw : 0 < gd.width) (hh : 0 < gd.height) :
    ∀ b ∈ ((genStage1 o k gd now t lb).1).bullets,
      b ∈ gd.bullets ∨ withinExtended gd.width gd.height b := by
  simp only [genStage1]
  split_ifs <;>
    first
      | exact fun b hb => Or.inl hb
      | exact mem_spawnSideBullet_within o _ _ now _ _ hr hw hh

lemma mem_genStage2_within (o : Oracle) (k : ℕ) (gd : GameData) (now lb lh : ℚ)
    (hr : RandInRange o) (hw : 0 < gd.width) (hh : 0 < gd.height) :
    ∀ b ∈ ((genStage2 o k gd now lb lh).1).bullets,
      b ∈ gd.bullets ∨ withinExtended gd.width gd.height b := by
  simp only [genStage2]
  split_ifs <;>
    first
      | exact fun b hb => Or.inl hb
      | exact mem_spawnSideBullet_within o _ _ now _ _ hr hw hh
      | exact mem_spawnHomingBullet_within o _ _ now _ hr hw hh
      | exact chain_step (mem_spawnHomingBullet_within o _ _ now _ hr hw hh)
          (mem_spawnSideBullet_within o _ _ now _ _ hr hw hh) rfl rfl

lemma mem_genStage3_within (o : Oracle) (k : ℕ) (gd : GameData) (now lb ls : ℚ)
    (hr : RandInRange o) (hw : 0 < gd.width) (hh : 0 < gd.height) :
    ∀ b ∈ ((genStage3 o k gd now lb ls).1).bullets,
      b ∈ gd.bullets ∨ withinExtended gd.width gd.height b := by
  simp only [genStage3]
  split_ifs <;>
    first
      | exact fun b hb => Or.inl hb
      | exact mem_spawnSideBullet_within o _ _ now _ _ hr hw hh
      | exact chain_step (mem_spawnSideBullet_within o _ _ now _ _ hr hw hh)
          (mem_spawnSideBullet_within o _ _ now _ _ hr hw hh) rfl rfl

lemma mem_genStage4_within (o : Oracle) (k : ℕ) (gd : GameData) (now lb lh ls : ℚ)
    (hr : RandInRange o) (hw : 0 < gd.width) (hh : 0 < gd.height) :
    ∀ b ∈ ((genStage4 o k gd now lb lh ls).1).bullets,
      b ∈ gd.bullets ∨ withinExtended gd.width gd.height b := by
  simp only [genStage4]
  split_ifs <;>
    first
      | exact fun b hb => Or.inl hb
      | exact mem_spawnSideBullet_within o _ _ now _ _ hr hw hh
      | exact mem_spawnHomingBullet_within o _ _ now _ hr hw hh
      | exact chain_step (mem_spawnHomingBullet_within o _ _ now _ hr hw hh)
          (mem_spawnSideBullet_within o _ _ now _ _ hr hw hh) rfl rfl
      | exact chain_step (mem_spawnSideBullet_within o _ _ now _ _ hr hw hh)
          (mem_spawnSideBullet_within o _ _ now _ _ hr hw hh) rfl rfl
      | exact chain_step (mem_spawnSideBullet_within o _ _ now _ _ hr hw hh)
          (mem_spawnHomingBullet_within o _ _ now _ hr hw hh) rfl rfl
      | exact chain_step (mem_spawnSideBullet_within o _ _ now _ _ hr hw hh)
          (chain_step (mem_spawnHomingBullet_within o _ _ now _ hr hw hh)
            (mem_spawnSideBullet_within o _ _ now _ _ hr hw hh) rfl rfl) rfl rfl

lemma mem_genStage5_within (o : Oracle) (k : ℕ) (gd : GameData) (now t lb lp : ℚ)
    (hr : RandInRange o) (hw : 0 < gd.width) (hh : 0 < gd.height)
    (hwh : gd.width ≤ gd.height + BULLET_SIZE) :
    ∀ b ∈ ((genStage5 o k gd now t lb lp).1).bullets,
      b ∈ gd.bullets ∨ withinExtended gd.width gd.height b := by
  simp only [genStage5]
  split_ifs <;>
    first
      | exact fun b hb => Or.inl hb
      | exact mem_spawnSideBullet_within o _ _ now _ _ hr hw hh
      | exact mem_spawnImpossibleWallPattern_within o _ _ now 150 t hr hw hh hwh
      | exact chain_step (mem_spawnImpossibleWallPattern_within o _ _ now 150 t hr hw hh hwh)
          (mem_spawnSideBullet_within o _ _ now _ _ hr hw hh) rfl rfl

lemma mem_genStageInfinite_within (o : Oracle) (k : ℕ) (gd : GameData) (now lb : ℚ)
    (hr : RandInRange o) (hw : 0 < gd.width) (hh : 0 < gd.height) :
    ∀ b ∈ ((genStageInfinite o k gd now lb).1).bullets,
      b ∈ gd.bullets ∨ withinExtended gd.width gd.height b := by
  simp only [genStageInfinite]
  split_ifs <;>
    first
      | exact fun b hb => Or.inl hb
      | exact mem_spawnSideBullet_within o _ _ now _ _ hr hw hh
      | exact chain_step (mem_spawnAimedBullet_within o _ _ now _ hr hw hh)
          (mem_spawnSideBullet_within o _ _ now _ _ hr hw hh) rfl rfl
      | exact chain_step (mem_spawnHomingBullet_within o _ _ now _ hr hw hh)
          (mem_spawnSideBullet_within o _ _ now _ _ hr hw hh) rfl rfl
      | exact chain_step (mem_spawnHomingBullet_within o _ _ now _ hr hw hh)
          (chain_step (mem_spawnAimedBullet_within o _ _ now _ hr hw hh)
            (mem_spawnSideBullet_within o _ _ now _ _ hr hw hh) rfl rfl) rfl rfl

lemma mem_generateBullets_within (o : Oracle) (k : ℕ) (gd : GameData) (now t : ℚ)
    (hr : RandInRange o) (hw : 0 < gd.width) (hh : 0 < gd.height)
    (hwh : gd.width ≤ gd.height + BULLET_SIZE) :
    ∀ b ∈ ((generateBullets o k gd now t).1).bullets,
      b ∈ gd.bullets ∨ withinExtended gd.width gd.height b := by
  simp only [generateBullets]
  split_ifs
  · exact mem_genStage1_within o k gd now t _ hr hw hh
  · exact mem_genStage2_within o k gd now _ _ hr hw hh
  · exact mem_genStage3_within o k gd now _ _ hr hw hh
  · exact mem_genStage4_within o k gd now _ _ _ hr hw hh
  · exact mem_genStage5_within o k gd now t _ _ hr hw hh hwh
  · exact mem_genStageInfinite_within o k gd now _ hr hw hh

lemma preCollisionState_bullets_within (o : Oracle) (k : ℕ) (gd : GameData)
    (now dt : ℚ) (hr : RandInRange o) (hw : 0 < gd.width) (hh : 0 < gd.height)
    (hwh : gd.width ≤ gd.height + BULLET_SIZE) :
    ∀ b ∈ ((preCollisionState o k gd now dt).1).bullets,
      withinExtended gd.width gd.height b := by
  intro b hb
  unfold preCollisionState at hb
  rw [expireFloatingTexts_bullets, gemMaintenance_bullets, expireItems_bullets,
    itemSpawnPhase_bullets] at hb
  have hW : (moveBullets o (splitPhase (tickTimers gd now) now) dt).width = gd.width := by
    rw [moveBullets_width, splitPhase_width, tickTimers_width]
  have hH : (moveBullets o (splitPhase (tickTimers gd now) now) dt).height = gd.height := by
    rw [moveBullets_height, splitPhase_height, tickTimers_height]
  have hsafe := mem_generateBullets_within o k
    (moveBullets o (splitPhase (tickTimers gd now) now) dt) now
    (((now - gd.stageStartTime) - (gd.totalPausedTime - gd.pausedTimeAtStageStart)) / 1000)
    hr (by rw [hW]; exact hw) (by rw [hH]; exact hh) (by rw [hW, hH]; exact hwh)
  rcases hsafe b hb with hb2 | hwit
  · have h2 := mem_moveBullets_within o (splitPhase (tickTimers gd now) now) dt b hb2
    rwa [splitPhase_width, tickTimers_width, splitPhase_height, tickTimers_height] at h2
  · rwa [hW, hH] at hwit

lemma itemPickupStep_bullets (now : ℚ) (st : Player × List Bullet × List Item)
    (item : Item) :
    ((itemPickupStep now st item).2.1) = st.2.1 ∨ ((itemPickupStep now st item).2.1) = [] := by
  unfold itemPickupStep
  split_ifs
  · cases item.type <;> simp
  · simp

lemma foldl_itemPickupStep_bullets (now : ℚ) (l : List Item)
    (st : Player × List Bullet × List Item) :
    ((l.foldl (itemPickupStep now) st).2.1) = st.2.1 ∨
      ((l.foldl (itemPickupStep now) st).2.1) = [] := by
  induction l generalizing st with
  | nil => exact Or.inl rfl
  | cons a tl ih =>
    rw [List.foldl_cons]
    rcases ih (itemPickupStep now st a) with h | h
    · rw [h]
      exact itemPickupStep_bullets now st a
    · exact Or.inr h

lemma itemPickupPhase_bullets_sub (gd : GameData) (now : ℚ) :
    (itemPickupPhase gd now).bullets = gd.bullets ∨ (itemPickupPhase gd now).bullets = [] := by
  unfold itemPickupPhase
  exact foldl_itemPickupStep_bullets now gd.items _

lemma gemPickupPhase_bullets (gd : GameData) (now : ℚ) :
    (gemPickupPhase gd now).bullets = gd.bullets := rfl

lemma invincibilityExpiryPhase_bullets (gd : GameData) (now : ℚ) :
    (invincibilityExpiryPhase gd now).bullets = gd.bullets := by
  simp only [invincibilityExpiryPhase]
  split <;> rfl

lemma gameOverPhase_bullets (gd : GameData) (now : ℚ) :
    (gameOverPhase gd now).bullets = gd.bullets := by
  simp only [gameOverPhase]
  split <;> rfl

/-- C7: every bullet visited by the collision checks of a tick — the
bullet list right after motion, out-of-bounds pruning and spawning, which
is exactly what the collision pass iterates — lies inside the arena bounds
extended by `BULLET_SIZE` on every side; hence a projectile whose position
falls strictly outside those extended bounds is removed before the
collision checks run and is never visited by them.  Moreover the bullets
surviving a full tick are within the same extended bounds (or the early
stage-clear return left the untouched input list). -/
theorem projectile_pruned_before_collision (o : Oracle) (k : ℕ) (gd : GameData)
    (now dt : ℚ) (hr : RandInRange o) (hw : 0 < gd.width) (hh : 0 < gd.height)
    (hwh : gd.width ≤ gd.height + BULLET_SIZE) :
    (∀ b ∈ ((preCollisionState o k gd now dt).1).bullets,
      withinExtended gd.width gd.height b) ∧
    (∀ b ∈ ((updateGameLogic o k gd now dt).1).bullets,
      withinExtended gd.width gd.height b ∨ b ∈ gd.bullets) := by
  have hpre := preCollisionState_bullets_within o k gd now dt hr hw hh hwh
  refine ⟨hpre, ?_⟩
  intro b hb
  by_cases hc : stageClearCondition gd now
  · rw [stageClear_early_return o k gd now dt hc] at hb
    exact Or.inr hb
  · left
    have hupd : (updateGameLogic o k gd now dt).1 =
        gameOverPhase (invincibilityExpiryPhase (gemPickupPhase (itemPickupPhase
          (collisionPhase (preCollisionState o k gd now dt).1 now) now) now) now) now := by
      simp only [updateGameLogic, hc, if_false]
    rw [hupd, gameOverPhase_bullets, invincibilityExpiryPhase_bullets,
      gemPickupPhase_bullets] at hb
    rcases itemPickupPhase_bullets_sub
        (collisionPhase (preCollisionState o k gd now dt).1 now) now with he | he
    · rw [he, collisionPhase_bullets] at hb
      exact hpre b hb
    · rw [he] at hb
      cases hb

/-- Witness for C7: on the session with a bullet riding the player, every
bullet reaching the collision pass of the t = 1000 tick is within the
extended bounds, and so is every bullet surviving the tick. -/
theorem projectile_pruned_before_collision_witness :
    (0 : ℚ) < gdDeath.width ∧ gdDeath.width ≤ gdDeath.height + BULLET_SIZE ∧
    ((∀ b ∈ ((preCollisionState oracle0 0 gdDeath 1000 0).1).bullets,
      withinExtended gdDeath.width gdDeath.height b) ∧
    (∀ b ∈ ((updateGameLogic oracle0 0 gdDeath 1000 0).1).bullets,
      withinExtended gdDeath.width gdDeath.height b ∨ b ∈ gdDeath.bullets)) := by
  refine ⟨by norm_num [gdDeath, gdBase], by norm_num [gdDeath, gdBase, BULLET_SIZE], ?_⟩
  exact projectile_pruned_before_collision oracle0 0 gdDeath 1000 0
    (fun n => by norm_num [oracle0]) (by norm_num [gdDeath, gdBase])
    (by norm_num [gdDeath, gdBase]) (by norm_num [gdDeath, gdBase, BULLET_SIZE])

end Croco
